import Mathlib

/-!
# Verification of the remote_build deployment control plane

A shallow embedding, in Lean 4, of the parts of the `remote_build` backend
(Python, `src/backend/app/...`) that the verified claims are about:

* the deployment concurrency gate (`deploy_service.DeploymentConcurrencyManager`),
* the deployment status enum (`models/deployment.DeploymentStatus`) and the
  status → progress mapping (`deploy_service.DeploymentService._update_status`),
* the batched log writer (`log_service.BatchLogWriter`) and the status-update
  path it interacts with,
* install-command resolution in the builder (`build_service.BuildService`),
* the per-server fan-out of the orchestrator and of the rollback driver
  (`deploy_service.py`, `rollback_service.py`),
* the frontend atomic-swap deploy step (`deploy_service._deploy_frontend_to_server`),
* incremental log fetch (`api/deployments.get_deployment`),
* branch listing (`git_service.get_branches` / `get_remote_branches`),
* restart-script command construction (`utils/script_utils.get_script_execution_info`).

Python strings are modelled as `String` / `List Char`, Python `int` exit codes
as `Nat` (the code only compares them with `0`), Python sets as `Finset Nat`,
database tables as Lean lists, and the remote side effects of SSH commands as
explicit small state machines.  Every definition is translated from the source
file named in its doc comment; definitions whose doc comment starts with
"Spec 4.8" follow the specification text instead and exist only to be compared
with the code-derived definitions.
-/

namespace RemoteBuild

/-! ## Concurrency gate (`deploy_service.py`, `DeploymentConcurrencyManager`) -/

/-- Model of `DeploymentConcurrencyManager` from `deploy_service.py` (lines 23-78):
`max_concurrent` and the in-flight set `_running_deployments` (a Python `set`
of deployment ids, modelled as a `Finset Nat`).  The `asyncio.Lock` makes each
operation atomic, so the methods are modelled as pure state transformers. -/
structure DeploymentConcurrencyManager where
  max_concurrent : Nat
  running_deployments : Finset Nat
deriving DecidableEq

/-- The constructor `__init__(max_concurrent)`: the in-flight set starts empty. -/
def DeploymentConcurrencyManager.init (maxConcurrent : Nat) : DeploymentConcurrencyManager :=
  { max_concurrent := maxConcurrent, running_deployments := ∅ }

/-- Method `acquire(deployment_id)`: under the lock, if
`len(self._running_deployments) >= self.max_concurrent` return `False`,
otherwise add the id and return `True`. -/
def DeploymentConcurrencyManager.acquire (m : DeploymentConcurrencyManager)
    (deploymentId : Nat) : Bool × DeploymentConcurrencyManager :=
  if m.max_concurrent ≤ m.running_deployments.card then
    (false, m)
  else
    (true, { m with running_deployments := insert deploymentId m.running_deployments })

/-- Method `release(deployment_id)`: under the lock, `set.discard` of the id. -/
def DeploymentConcurrencyManager.release (m : DeploymentConcurrencyManager)
    (deploymentId : Nat) : DeploymentConcurrencyManager :=
  { m with running_deployments := m.running_deployments.erase deploymentId }

/-- A call against the gate: either method, with its argument. -/
inductive GateOp where
  | acquireOp (deploymentId : Nat)
  | releaseOp (deploymentId : Nat)
deriving DecidableEq

/-- Run a sequence of gate calls (the lock serialises them, so any concurrent
history is some such sequence). -/
def runGateOps (m : DeploymentConcurrencyManager) : List GateOp → DeploymentConcurrencyManager
  | [] => m
  | GateOp.acquireOp i :: ops => runGateOps (m.acquire i).2 ops
  | GateOp.releaseOp i :: ops => runGateOps (m.release i) ops

/-! ## Deployment statuses and progress (`models/deployment.py`, `deploy_service.py`) -/

/-- The `DeploymentStatus` enum exactly as declared in
`models/deployment.py` lines 24-35.  Note: it has no `QUEUED`, `RESTARTING`
or `HEALTH_CHECKING` member. -/
inductive ModelDeploymentStatus where
  | PENDING | CLONING | BUILDING | UPLOADING | DEPLOYING
  | SUCCESS | FAILED | CANCELLED | ROLLBACK
deriving DecidableEq

/-- The member names of `DeploymentStatus` in `models/deployment.py`, in
declaration order. -/
def deploymentStatusMemberNames : List String :=
  ["PENDING", "CLONING", "BUILDING", "UPLOADING", "DEPLOYING",
   "SUCCESS", "FAILED", "CANCELLED", "ROLLBACK"]

/-- The statuses the orchestrator actually passes to `_update_status` and lists
as keys of its `progress_map` (`deploy_service.py` lines 724-735).  This set
includes `RESTARTING` and `HEALTH_CHECKING`, which `models/deployment.py` does
not define (the subject of claim C2). -/
inductive OrchestratorStatus where
  | PENDING | CLONING | BUILDING | UPLOADING | DEPLOYING
  | RESTARTING | HEALTH_CHECKING | SUCCESS | FAILED | CANCELLED
deriving DecidableEq

/-- The `.value` strings the orchestrator statuses would carry (lowercase, as in
the enum values of `models/deployment.py`). -/
def OrchestratorStatus.value : OrchestratorStatus → String
  | .PENDING => "pending"
  | .CLONING => "cloning"
  | .BUILDING => "building"
  | .UPLOADING => "uploading"
  | .DEPLOYING => "deploying"
  | .RESTARTING => "restarting"
  | .HEALTH_CHECKING => "health_checking"
  | .SUCCESS => "success"
  | .FAILED => "failed"
  | .CANCELLED => "cancelled"

/-- The `progress_map` dict literal of `DeploymentService._update_status`
(`deploy_service.py` lines 724-735), together with the `.get(status, 0)`
default. -/
def progress_map : OrchestratorStatus → Nat
  | .PENDING => 0
  | .CLONING => 10
  | .BUILDING => 30
  | .UPLOADING => 60
  | .DEPLOYING => 80
  | .RESTARTING => 90
  | .HEALTH_CHECKING => 95
  | .SUCCESS => 100
  | .FAILED => 0
  | .CANCELLED => 0

/-- Python truthiness of an optional string: `None` and `""` are falsy. -/
def truthyOptStr (o : Option String) : Bool :=
  match o with
  | none => false
  | some s => decide (s ≠ "")

/-- The mutable fields of a `Deployment` row touched by `_update_status`. -/
structure DeploymentRecord where
  status : OrchestratorStatus
  progress : Nat
  current_step : String
  error_message : Option String
deriving DecidableEq

/-- Embedding of `DeploymentService._update_status(status, error_message)`
(`deploy_service.py` lines 711-740): sets `status`, `current_step`,
`progress := progress_map.get(status, 0)`, and `error_message` only when the
argument is truthy; then commits.  It performs no other action — in
particular it never calls `self.logger.flush()`. -/
def update_status (d : DeploymentRecord) (status : OrchestratorStatus)
    (error_message : Option String) : DeploymentRecord :=
  { status := status,
    current_step := status.value,
    progress := progress_map status,
    error_message := if truthyOptStr error_message then error_message else d.error_message }

/-! ## Batched log writer (`log_service.py`, `BatchLogWriter`) -/

/-- Model of `PendingLogEntry` from `log_service.py` (level, content, captured
timestamp; timestamps modelled as `Nat`). -/
structure PendingLogEntry where
  level : String
  content : String
  timestamp : Nat
deriving DecidableEq

/-- The state of a `BatchLogWriter` (`log_service.py` lines 109-177):
`batch_size` (default 50), the `pending_logs` list, and `_last_flush`.
The durable store is threaded separately as a list of rows. -/
structure BatchLogWriter where
  batch_size : Nat
  pending_logs : List PendingLogEntry
  last_flush : Nat
deriving DecidableEq

/-- Constructor `BatchLogWriter.__init__(deployment_id, db)`: `batch_size = 50`, empty
pending list. -/
def BatchLogWriter.init (now : Nat) : BatchLogWriter :=
  { batch_size := 50, pending_logs := [], last_flush := now }

/-- Method `BatchLogWriter._flush()`: if anything is pending, insert all pending rows
(with their captured timestamps) and commit once, then clear the pending list
and reset `_last_flush`. -/
def BatchLogWriter.flushPending (w : BatchLogWriter) (db : List PendingLogEntry)
    (now : Nat) : BatchLogWriter × List PendingLogEntry :=
  if w.pending_logs = [] then (w, db)
  else ({ w with pending_logs := [], last_flush := now }, db ++ w.pending_logs)

/-- Method `BatchLogWriter.add_log(level, content, timestamp)`: append to
`pending_logs`; if `len(pending_logs) >= batch_size`, `_flush()`. -/
def BatchLogWriter.add_log (w : BatchLogWriter) (db : List PendingLogEntry)
    (level content : String) (now : Nat) : BatchLogWriter × List PendingLogEntry :=
  let w' := { w with pending_logs := w.pending_logs ++ [⟨level, content, now⟩] }
  if w'.batch_size ≤ w'.pending_logs.length then w'.flushPending db now else (w', db)

/-- The state a running deployment task owns: its `Deployment` row, its
`BatchLogWriter`, and the durable `deployment_logs` rows for this deployment.
(The in-memory ring buffer is irrelevant to persistence and is omitted.) -/
structure OrchestratorState where
  deployment : DeploymentRecord
  writer : BatchLogWriter
  db_logs : List PendingLogEntry
deriving DecidableEq

/-- Method `DeploymentLogger._log` (`log_service.py` lines 257-283) with
`enable_batch = True` (the default used by the orchestrator): the entry goes
through `batch_writer.add_log` with the captured timestamp. -/
def OrchestratorState.log (st : OrchestratorState) (level content : String)
    (now : Nat) : OrchestratorState :=
  let (w, db) := st.writer.add_log st.db_logs level content now
  { st with writer := w, db_logs := db }

/-- The orchestrator's status update as it acts on the whole task state:
`_update_status` mutates only the `Deployment` row.  No code path of
`deploy_service.py` (nor of `api/deployments.py`) invokes
`BatchLogWriter.flush` or `should_flush`, so the writer is untouched. -/
def OrchestratorState.updateStatus (st : OrchestratorState)
    (status : OrchestratorStatus) (err : Option String) : OrchestratorState :=
  { st with deployment := update_status st.deployment status err }

/-! ## Install-command resolution (`build_service.py`, `BuildService`) -/

/-- The `default_commands` dict of `_get_install_command`
(`build_service.py` lines 190-196) combined with `.get(project_type)`:
`"frontend" → "npm install"`, `"java" → "mvn dependency:resolve"`,
`"backend" → None`, anything else absent (also `None`). -/
def default_install_commands (project_type : String) : Option String :=
  if project_type = "frontend" then some "npm install"
  else if project_type = "java" then some "mvn dependency:resolve"
  else none

/-- Embedding of `BuildService._get_install_command` (`build_service.py` lines 175-196):
`None` when `auto_install` is disabled; otherwise the custom `install_script`
if truthy; otherwise the per-kind default. -/
def get_install_command (auto_install : Bool) (install_script : Option String)
    (project_type : String) : Option String :=
  if auto_install = false then none
  else if truthyOptStr install_script then install_script
  else default_install_commands project_type

/-- What the install phase of `BuildService.build` did. -/
structure InstallStepOutcome where
  attempted : Bool
  resolved_command : Option String
  warning_logged : Bool
  build_step_reached : Bool
deriving DecidableEq

/-- The install phase of `BuildService.build` (`build_service.py` lines
286-293) together with `_install_dependencies` (lines 198-271).  The phase
runs when `self.auto_install or self.install_script`;
`_install_dependencies` resolves the command (exit 0 when it resolves to
none) and otherwise reports the subprocess exit code `install_exit`.  A
non-zero exit logs a warning and the build continues either way. -/
def build_install_step (auto_install : Bool) (install_script : Option String)
    (project_type : String) (install_exit : Nat) : InstallStepOutcome :=
  if auto_install || truthyOptStr install_script then
    let cmd := get_install_command auto_install install_script project_type
    let exitCode := match cmd with | none => 0 | some _ => install_exit
    { attempted := true, resolved_command := cmd,
      warning_logged := exitCode ≠ 0, build_step_reached := true }
  else
    { attempted := false, resolved_command := none,
      warning_logged := false, build_step_reached := true }

/-! ## Per-server fan-out (`deploy_service.py`, `_deploy_to_servers` / `_restart_servers`) -/

/-- The fields of a `Server` row the fan-out reads. -/
structure ServerInfo where
  name : String
  is_active : Bool
deriving DecidableEq

/-- A `ServerGroup` with its member servers, in enumeration order. -/
structure ServerGroupInfo where
  name : String
  servers : List ServerInfo
deriving DecidableEq

/-- The flattened traversal order of the fan-out: groups in selection order,
servers within each group in enumeration order. -/
def allServers (groups : List ServerGroupInfo) : List ServerInfo :=
  (groups.map (·.servers)).flatten

/-- The active servers in traversal order (inactive ones are skipped with a
warning by both fan-out loops). -/
def activeServers (groups : List ServerGroupInfo) : List ServerInfo :=
  (allServers groups).filter (·.is_active)

/-- The inner loop of `DeploymentService._deploy_to_servers`
(`deploy_service.py` lines 337-345) over one list of servers.  The oracle
`outcome` stands for the body `_deploy_to_server`, whose failures are
`DeploymentError(f"Failed to deploy to {server.name}: {e}")` (line 423).
Returns the names of the servers actually deployed to, in order, and the
overall result: the loop performs no exception handling, so the first
failure aborts it. -/
def deployServerList (outcome : ServerInfo → Except String Unit) :
    List ServerInfo → List String × Except String Unit
  | [] => ([], Except.ok ())
  | s :: rest =>
    if s.is_active = false then deployServerList outcome rest
    else
      match outcome s with
      | Except.error e => ([s.name], Except.error ("Failed to deploy to " ++ s.name ++ ": " ++ e))
      | Except.ok _ =>
        let r := deployServerList outcome rest
        (s.name :: r.1, r.2)

/-- Embedding of `DeploymentService._deploy_to_servers` (`deploy_service.py` lines
327-345): the outer loop over server groups; an exception from any group
propagates immediately. -/
def deploy_to_servers (groups : List ServerGroupInfo)
    (outcome : ServerInfo → Except String Unit) : List String × Except String Unit :=
  match groups with
  | [] => ([], Except.ok ())
  | g :: gs =>
    match deployServerList outcome g.servers with
    | (att, Except.error e) => (att, Except.error e)
    | (att, Except.ok _) =>
      let r := deploy_to_servers gs outcome
      (att ++ r.1, r.2)

/-- The `DEPLOYING` stage as `deploy()` runs it (`deploy_service.py` lines
190-192 and the handler at lines 160-163): on a `DeploymentError` from the
fan-out, `_update_status(FAILED, str(e))` records the error.  Returns the
updated deployment row and the list of servers attempted. -/
def run_deploying_stage (d : DeploymentRecord) (groups : List ServerGroupInfo)
    (outcome : ServerInfo → Except String Unit) : DeploymentRecord × List String :=
  match deploy_to_servers groups outcome with
  | (att, Except.error e) => (update_status d OrchestratorStatus.FAILED (some e), att)
  | (att, Except.ok _) => (d, att)

/-- The inner loop of `DeploymentService._restart_servers`
(`deploy_service.py` lines 596-608) over one list of servers: unlike the
deploying fan-out, each failure is caught, logged, and collected in
`failed_servers`, and the loop continues.  Returns (attempted names,
failed names). -/
def restartServerList (outcome : ServerInfo → Except String Unit) :
    List ServerInfo → List String × List String
  | [] => ([], [])
  | s :: rest =>
    if s.is_active = false then restartServerList outcome rest
    else
      let r := restartServerList outcome rest
      match outcome s with
      | Except.error _ => (s.name :: r.1, s.name :: r.2)
      | Except.ok _ => (s.name :: r.1, r.2)

/-- Embedding of `DeploymentService._restart_servers` (`deploy_service.py` lines 584-615):
all groups are traversed, failures collected across groups. -/
def restart_servers (groups : List ServerGroupInfo)
    (outcome : ServerInfo → Except String Unit) : List String × List String :=
  match groups with
  | [] => ([], [])
  | g :: gs =>
    let r1 := restartServerList outcome g.servers
    let r2 := restart_servers gs outcome
    (r1.1 ++ r2.1, r1.2 ++ r2.2)

/-- The `RESTARTING` stage end-to-end (`deploy_service.py` lines 610-615 plus
the `deploy()` handler): if any server failed, the deployment is marked
`FAILED` with `"Failed to restart servers: "` followed by the comma-joined
names of every failed server. -/
def run_restart_stage (d : DeploymentRecord) (groups : List ServerGroupInfo)
    (outcome : ServerInfo → Except String Unit) : DeploymentRecord × List String :=
  let r := restart_servers groups outcome
  if r.2 = [] then (d, r.1)
  else
    (update_status d OrchestratorStatus.FAILED
      (some ("Failed to restart servers: " ++ String.intercalate ", " r.2)), r.1)

/-! ## Frontend atomic swap (`deploy_service.py`, `_deploy_frontend_to_server`) -/

/-- What is present at the remote target path `upload_path`. -/
inductive TargetContent where
  | absent    -- no directory at the target path
  | original  -- the pre-deployment directory
  | fresh     -- the newly unzipped directory
deriving DecidableEq

/-- The remote directories the frontend swap manipulates: the target path,
the timestamped backup path, and the staged artifact zip in the parent
directory. -/
structure RemoteDirState where
  target : TargetContent
  backup : Bool          -- original directory present at the backup path
  staging_zip : Bool     -- artifact zip present at the parent directory
deriving DecidableEq

/-- Exit codes of the remote commands `_deploy_frontend_to_server` issues, as
reported by the SSH executor.  `unzip_creates_dir` records whether a failed
`unzip -o ... -d target` nevertheless left a directory at the target path.
`mv` and `rm -f` are modelled as taking effect when they report success; when
the guarded backup command or the restore `mv` report failure the move is
modelled as not having happened. -/
structure FrontendEnv where
  prior_exists : Bool
  mkdir_exit : Nat
  backup_exit : Nat
  unzip_exit : Nat
  unzip_stderr : String
  unzip_creates_dir : Bool
  restore_exit : Nat
deriving DecidableEq

/-- The observable outcome of `_deploy_frontend_to_server` on one server. -/
structure FrontendDeployResult where
  ok : Bool
  error_message : Option String
  fs : RemoteDirState
  restore_attempted : Bool
  manual_restore_logged : Option String
deriving DecidableEq

/-- Python `os.path.dirname` for POSIX paths: everything up to the last `/`, with
trailing slashes stripped unless the head is all slashes. -/
def posixDirname (p : String) : String :=
  let cs := p.data
  let i := (List.range cs.length).foldl (fun acc j => if cs.get? j = some '/' then j + 1 else acc) 0
  let head := cs.take i
  if head = [] then ""
  else if head.all (· = '/') then String.mk head
  else String.mk (head.reverse.dropWhile (· = '/')).reverse

/-- Python `os.path.basename` for POSIX paths: everything after the last `/`. -/
def posixBasename (p : String) : String :=
  let cs := p.data
  let i := (List.range cs.length).foldl (fun acc j => if cs.get? j = some '/' then j + 1 else acc) 0
  String.mk (cs.drop i)

/-- Python `os.path.join(a, b)` for the two-argument POSIX case. -/
def posixJoin (a b : String) : String :=
  if a = "" then b
  else if a.endsWith "/" then a ++ b
  else a ++ "/" ++ b

/-- Embedding of `DeploymentService._deploy_frontend_to_server` (`deploy_service.py` lines
463-582), for one server.  `ts` is the `MMDD-HHMMSS` timestamp.  The step
order mirrors the source: path validation, `mkdir -p` of the parent, upload
of the zip, the guarded backup `mv`, the backup-existence probe, `unzip -o`,
and on unzip failure the restore attempt (when a backup was made), the
manual-restore log line on restore failure, and the staging-zip cleanup
before the raise. -/
def deploy_frontend_to_server (upload_path artifact_name ts : String)
    (env : FrontendEnv) : FrontendDeployResult :=
  let parent_dir := posixDirname upload_path
  let target_dir_name := posixBasename upload_path
  let backup_path := posixJoin parent_dir (target_dir_name ++ "-" ++ ts)
  let fs0 : RemoteDirState :=
    { target := if env.prior_exists then TargetContent.original else TargetContent.absent,
      backup := false, staging_zip := false }
  if parent_dir = "" ∨ parent_dir = upload_path then
    { ok := false, error_message := some ("无效的配置路径: " ++ upload_path),
      fs := fs0, restore_attempted := false, manual_restore_logged := none }
  else if env.mkdir_exit ≠ 0 then
    { ok := false, error_message := some "Failed to create parent directory",
      fs := fs0, restore_attempted := false, manual_restore_logged := none }
  else
    -- upload of the artifact zip into the parent directory
    let fs1 := { fs0 with staging_zip := true }
    if env.backup_exit ≠ 0 then
      -- backup failed: clean up the uploaded zip and abort
      { ok := false, error_message := some "备份失败，已中止部署",
        fs := { fs1 with staging_zip := false },
        restore_attempted := false, manual_restore_logged := none }
    else
      -- the guarded `if [ -d target ]; then mv target backup; fi`
      let fs2 :=
        if fs1.target = TargetContent.original then
          { fs1 with target := TargetContent.absent, backup := true }
        else fs1
      -- `[ -d backup ] && echo EXISTS || echo NOT_EXISTS`
      let backup_exists := fs2.backup
      if env.unzip_exit = 0 then
        { ok := true, error_message := none,
          fs := { fs2 with target := TargetContent.fresh, staging_zip := false },
          restore_attempted := false, manual_restore_logged := none }
      else
        -- unzip failed; it may or may not have created the target directory
        let fsU := { fs2 with target := if env.unzip_creates_dir then TargetContent.fresh else fs2.target }
        let errMsg := some ("解压失败，已中止部署: " ++ env.unzip_stderr)
        if backup_exists then
          if env.restore_exit = 0 then
            -- `mv backup target`: restores the original when the target is absent
            let fsR := { fsU with
              target := if fsU.target = TargetContent.absent then TargetContent.original else fsU.target,
              backup := false }
            { ok := false, error_message := errMsg,
              fs := { fsR with staging_zip := false },
              restore_attempted := true, manual_restore_logged := none }
          else
            { ok := false, error_message := errMsg,
              fs := { fsU with staging_zip := false },
              restore_attempted := true,
              manual_restore_logged :=
                some ("mv \"" ++ backup_path ++ "\" \"" ++ upload_path ++ "\"") }
        else
          { ok := false, error_message := errMsg,
            fs := { fsU with staging_zip := false },
            restore_attempted := false, manual_restore_logged := none }

/-! ## Restart-script resolution (`utils/script_utils.py`, `get_script_execution_info`)

Python strings are modelled as `List Char` where character-level reasoning is
needed; `pathlib.PurePosixPath` semantics (`.name`, `.parent`,
`.is_absolute()`) are reproduced below. -/

/-- The `dangerous_chars` list of `get_script_execution_info`
(`script_utils.py` line 22). -/
def dangerous_chars : List Char :=
  [';', '|', '&', '$', Char.ofNat 96, '(', ')', '\n', '\r', '\t']

/-- The whitespace characters `str.strip()` removes. -/
def pyIsSpace (c : Char) : Bool :=
  [' ', '\t', '\n', '\r', Char.ofNat 11, Char.ofNat 12].contains c

/-- Python `not script_path.strip()`: true iff every character is whitespace. -/
def pyStripIsEmpty (s : String) : Bool :=
  s.data.all pyIsSpace

/-- Split a character list on a separator character (the separators
themselves are dropped, empty pieces are kept). -/
def splitOnChar (sep : Char) : List Char → List (List Char)
  | [] => [[]]
  | c :: rest =>
    if c = sep then [] :: splitOnChar sep rest
    else
      match splitOnChar sep rest with
      | [] => [[c]]
      | p :: ps => (c :: p) :: ps

/-- The `parts` of a `PurePosixPath` after the root: empty pieces and `.`
pieces are discarded during parsing. -/
def pathComponents (s : List Char) : List (List Char) :=
  (splitOnChar '/' s).filter (fun p => !(p.isEmpty) && !(p == ['.']))

/-- Number of leading slashes of the path string. -/
def leadingSlashes : List Char → Nat
  | [] => 0
  | c :: rest => if c = '/' then leadingSlashes rest + 1 else 0

/-- The root of a `PurePosixPath`: exactly two leading slashes are preserved
as `//`, any other positive number collapses to `/`. -/
def pathRoot (s : List Char) : List Char :=
  if leadingSlashes s = 2 then ['/', '/']
  else if 1 ≤ leadingSlashes s then ['/']
  else []

/-- Join pieces with `/` separators. -/
def joinSlash : List (List Char) → List Char
  | [] => []
  | [p] => p
  | p :: ps => p ++ '/' :: joinSlash ps

/-- Python `PurePosixPath(s).name`: the last component, or empty. -/
def pathName (s : List Char) : List Char :=
  (pathComponents s).getLastD []

/-- Python `str(PurePosixPath(s).parent)`: drop the last component; `.` for a bare
relative name, the root alone for a top-level path. -/
def pathParent (s : List Char) : List Char :=
  let root := pathRoot s
  let comps := (pathComponents s).dropLast
  if comps = [] then (if root = [] then ['.'] else root)
  else root ++ joinSlash comps

/-- Python `PurePosixPath(s).is_absolute()`. -/
def pathIsAbsolute (s : List Char) : Bool :=
  decide (1 ≤ leadingSlashes s)

/-- The dict returned by `get_script_execution_info`. -/
structure ScriptExecutionInfo where
  working_dir : String
  command : String
  script_name : String
deriving DecidableEq

/-- Embedding of `get_script_execution_info(script_path)` (`script_utils.py` lines 6-41):
reject empty/whitespace paths and paths containing a dangerous character
(`ValueError`, modelled as `Except.error`); otherwise `script_name` is the
path's basename, `working_dir` is `str(path.parent)` (with the dead
`or '.'` fallback of the relative branch), and the command is
`cd "<working_dir>" && bash "./<script_name>"`. -/
def get_script_execution_info (script_path : String) : Except String ScriptExecutionInfo :=
  if script_path = "" ∨ pyStripIsEmpty script_path then
    Except.error "script_path cannot be empty"
  else if script_path.data.any (fun c => dangerous_chars.contains c) then
    Except.error "script_path contains potentially dangerous characters"
  else
    let cs := script_path.data
    let script_name := pathName cs
    let parent := pathParent cs
    let working_dir := if pathIsAbsolute cs then parent
                       else (if parent = [] then ['.'] else parent)
    Except.ok
      { working_dir := String.mk working_dir,
        script_name := String.mk script_name,
        command := "cd \"" ++ String.mk working_dir ++ "\" && bash \"./"
                     ++ String.mk script_name ++ "\"" }

/-! ## Rollback driver (`rollback_service.py`, `RollbackService`) -/

/-- The steps a deployment-style task can perform, at the granularity claim
C1 is about.  The full-deploy flow performs `clone` and `build`
(`deploy_service._full_deploy`); the rollback flow must not. -/
inductive RollbackStep where
  | clone
  | build
  | uploadArtifact (server : String)
  | extract (server : String)
  | restartScript (server : String)
deriving DecidableEq

/-- Everything the rollback reads from its environment: the source
deployment's artifact record and file, the project's `deploy_script_path`,
and per-server remote data and exit codes (`server.deploy_path`, the exit of
the `mkdir && tar && rm` compound, the exit of `bash <script>`). -/
structure RollbackEnv where
  source_id : Nat
  has_artifact : Bool
  artifact_path : String
  file_exists : Bool
  deploy_script_path : Option String
  extract_exit : ServerInfo → Nat
  restart_exit : ServerInfo → Nat

/-- The observable outcome of `RollbackService.rollback`. -/
structure RollbackResult where
  status : ModelDeploymentStatus
  error_message : Option String
  steps : List RollbackStep
  warnings : List String

/-- Embedding of `RollbackService._deploy_to_server` (`rollback_service.py` lines
123-171), for one server: upload the artifact to `/tmp`, run the
`mkdir -p && tar -xzf && rm` compound (non-zero exit raises
`RollbackError("Failed to extract artifact: ...")`, wrapped by the outer
handler into `"Failed to deploy to <name>: ..."`), then, when the project
has a `deploy_script_path`, run `bash <path>`; a non-zero restart exit only
logs a warning.  Returns the performed steps and warnings. -/
def rollback_deploy_to_server (env : RollbackEnv) (s : ServerInfo) :
    Except String (List RollbackStep × List String) :=
  if env.extract_exit s ≠ 0 then
    Except.error ("Failed to deploy to " ++ s.name ++ ": Failed to extract artifact")
  else
    let steps := [RollbackStep.uploadArtifact s.name, RollbackStep.extract s.name]
    if truthyOptStr env.deploy_script_path then
      if env.restart_exit s ≠ 0 then
        Except.ok (steps ++ [RollbackStep.restartScript s.name],
          ["Restart script failed on " ++ s.name])
      else
        Except.ok (steps ++ [RollbackStep.restartScript s.name], [])
    else
      Except.ok (steps, [])

/-- The inner server loop of `RollbackService._deploy_to_servers`
(`rollback_service.py` lines 113-121): inactive servers are skipped with a
warning; the loop performs no exception handling, so the first failure
aborts the fan-out. -/
def rollbackServerList (env : RollbackEnv) :
    List ServerInfo → Except String (List RollbackStep × List String)
  | [] => Except.ok ([], [])
  | s :: rest =>
    if s.is_active = false then rollbackServerList env rest
    else
      match rollback_deploy_to_server env s with
      | Except.error e => Except.error e
      | Except.ok r =>
        match rollbackServerList env rest with
        | Except.error e => Except.error e
        | Except.ok r2 => Except.ok (r.1 ++ r2.1, r.2 ++ r2.2)

/-- The group loop of `RollbackService._deploy_to_servers`. -/
def rollbackGroups (env : RollbackEnv) :
    List ServerGroupInfo → Except String (List RollbackStep × List String)
  | [] => Except.ok ([], [])
  | g :: gs =>
    match rollbackServerList env g.servers with
    | Except.error e => Except.error e
    | Except.ok r =>
      match rollbackGroups env gs with
      | Except.error e => Except.error e
      | Except.ok r2 => Except.ok (r.1 ++ r2.1, r.2 ++ r2.2)

/-- Embedding of `RollbackService.rollback` (`rollback_service.py` lines 63-101): fail
with `FAILED` when the source deployment has no artifact record or the
artifact file is missing on disk; otherwise run the server fan-out; any
exception sets the target deployment to `FAILED` with `str(e)` as
`error_message`, success sets `SUCCESS`.  No clone and no build happen on
any path. -/
def RollbackService.rollback (groups : List ServerGroupInfo) (env : RollbackEnv) :
    RollbackResult :=
  if env.has_artifact = false then
    { status := ModelDeploymentStatus.FAILED,
      error_message := some ("No artifact found for deployment " ++ toString env.source_id),
      steps := [], warnings := [] }
  else if env.file_exists = false then
    { status := ModelDeploymentStatus.FAILED,
      error_message := some ("Artifact file not found: " ++ env.artifact_path),
      steps := [], warnings := [] }
  else
    match rollbackGroups env groups with
    | Except.error e =>
      { status := ModelDeploymentStatus.FAILED, error_message := some e,
        steps := [], warnings := [] }
    | Except.ok r =>
      { status := ModelDeploymentStatus.SUCCESS, error_message := none,
        steps := r.1, warnings := r.2 }

/-- The remote commands `RollbackService._deploy_to_server` executes on one
server (`rollback_service.py` lines 145-161), in order: the
`mkdir -p <deploy_path> && tar -xzf /tmp/<zip> -C <deploy_path> && rm
/tmp/<zip>` compound, then `bash <deploy_script_path>` when set. -/
def rollback_server_commands (deploy_path artifact_name : String)
    (script : Option String) : List String :=
  ["mkdir -p " ++ deploy_path ++ " && tar -xzf /tmp/" ++ artifact_name
     ++ " -C " ++ deploy_path ++ " && rm /tmp/" ++ artifact_name]
  ++ (match script with | some p => ["bash " ++ p] | none => [])

/-- The remote commands the section-4.8 fan-out executes for a backend/java
project on one server (`deploy_service._deploy_backend_to_server` lines
425-461 plus the restart step of `_deploy_to_server` lines 379-416):
`mkdir -p`, `unzip -o`, and the quoted `cd`+`bash` restart command built by
`get_script_execution_info`. -/
def deploy_backend_server_commands (upload_path artifact_name : String)
    (restart_script_path : Option String) : List String :=
  ["mkdir -p " ++ upload_path,
   "unzip -o " ++ upload_path ++ "/" ++ artifact_name ++ " -d " ++ upload_path]
  ++ (match restart_script_path with
      | some p =>
        match get_script_execution_info p with
        | Except.ok info => [info.command]
        | Except.error _ => []
      | none => [])

/-! ## Incremental log fetch (`api/deployments.py`, `get_deployment`) -/

/-- A `deployment_logs` row as the fetch endpoint sees it (autoincrement
primary key `id`, owning deployment, content). -/
structure LogRow where
  id : Nat
  deployment_id : Nat
  content : String
deriving DecidableEq

/-- The `ORDER BY id ASC` comparison on log rows. -/
def rowLe (a b : LogRow) : Prop := a.id ≤ b.id

/-- The `ORDER BY id DESC` comparison on log rows. -/
def rowGe (a b : LogRow) : Prop := b.id ≤ a.id

instance : DecidableRel rowLe := fun a b => inferInstanceAs (Decidable (a.id ≤ b.id))

instance : DecidableRel rowGe := fun a b => inferInstanceAs (Decidable (b.id ≤ a.id))

instance : IsTotal LogRow rowLe := ⟨fun a b => Nat.le_total a.id b.id⟩

instance : IsTrans LogRow rowLe := ⟨fun _ _ _ h1 h2 => Nat.le_trans h1 h2⟩

instance : IsTotal LogRow rowGe := ⟨fun a b => Nat.le_total b.id a.id⟩

instance : IsTrans LogRow rowGe := ⟨fun _ _ _ h1 h2 => Nat.le_trans h2 h1⟩

/-- The log query of `get_deployment` (`api/deployments.py` lines 218-244),
over the `deployment_logs` table `rows`: filter by deployment; with
`since_id`, keep `id > since_id`, order ascending, `LIMIT 100`; without,
select the ids of the 500 most recent rows (order descending, `LIMIT 500`)
and return the rows with those ids in ascending order. -/
def deployment_logs_query (rows : List LogRow) (deploymentId : Nat)
    (sinceId : Option Nat) : List LogRow :=
  let base := rows.filter (fun r => r.deployment_id == deploymentId)
  match sinceId with
  | some s => ((base.filter (fun r => decide (s < r.id))).insertionSort rowLe).take 100
  | none =>
    let subIds := ((base.insertionSort rowGe).take 500).map (·.id)
    (base.filter (fun r => subIds.contains r.id)).insertionSort rowLe

/-- Python `max((log.id for log in logs), default=0)` (`api/deployments.py` line
247): the `max_log_id` field of the response. -/
def response_max_log_id (logs : List LogRow) : Nat :=
  (logs.map (·.id)).foldr max 0

/-! ## Branch listing (`git_service.py`, `get_branches` / `get_remote_branches`) -/

/-- Python `str.replace(pat, rep)` (all occurrences, left to right), via a
fuel-indexed scan so that the kernel can evaluate it. -/
def pyReplaceGo (pat rep : List Char) : Nat → List Char → List Char
  | _, [] => []
  | 0, l => l
  | n + 1, c :: rest =>
    if pat ≠ [] ∧ pat.isPrefixOf (c :: rest) then
      rep ++ pyReplaceGo pat rep n (rest.drop (pat.length - 1))
    else
      c :: pyReplaceGo pat rep n rest

/-- Python `l.replace(pat, rep)`. -/
def pyReplace (pat rep l : List Char) : List Char :=
  pyReplaceGo pat rep l.length l

/-- The `refs/heads/` literal of `get_branches`. -/
def refsHeadsPat : List Char := "refs/heads/".data

/-- One iteration of the parsing loop of `GitService.get_branches`
(`git_service.py` lines 551-559): skip blank lines; split on tab; accept
only two-field lines whose second field starts with `refs/heads/`; the
branch name is the field with every `refs/heads/` occurrence removed; skip
empty names. -/
def parse_branch_line (line : List Char) : Option String :=
  if line.all pyIsSpace then none
  else
    match splitOnChar '\t' line with
    | [_, r] =>
      if refsHeadsPat.isPrefixOf r then
        let name := pyReplace refsHeadsPat [] r
        if name = [] then none else some (String.mk name)
      else none
    | _ => none

/-- The branch list `get_branches` builds from the `ls-remote` output before
sorting. -/
def get_branches_parse (refs_output : String) : List String :=
  (splitOnChar '\n' refs_output.data).filterMap parse_branch_line

/-- Lexicographic (code-point) comparison of character lists — the order
Python's `sorted` uses on strings. -/
def pyCharsLe : List Char → List Char → Bool
  | [], _ => true
  | _ :: _, [] => false
  | x :: xs, y :: ys =>
    if x < y then true
    else if y < x then false
    else pyCharsLe xs ys

/-- Python's string order on Lean strings. -/
def pyStrLe (a b : String) : Bool :=
  pyCharsLe a.data b.data

instance pyStrLeDecidableRel : DecidableRel (fun a b : String => pyStrLe a b = true) :=
  fun _ _ => inferInstanceAs (Decidable (_ = true))

/-- Python `sorted(branches)` at the end of `get_branches` (`git_service.py` line
562): a sort in Python's string order, with no deduplication. -/
def get_branches_sorted (refs_output : String) : List String :=
  (get_branches_parse refs_output).insertionSort (fun a b => pyStrLe a b = true)

/-- Embedding of `GitService.get_branches` (`git_service.py` lines 528-570): raises
`GitError("Repository not initialized. Call clone() first.")` unless the
service holds a cloned working copy (`self.repo`); otherwise parses and
sorts the `ls-remote` output. -/
def GitService.get_branches (repo_initialized : Bool) (refs_output : String) :
    Except String (List String) :=
  if repo_initialized = false then
    Except.error "Repository not initialized. Call clone() first."
  else
    Except.ok (get_branches_sorted refs_output)

/-- The operations `get_remote_branches` performs against a `GitService`. -/
inductive GitCall where
  | cloneCall
  | lsRemoteCall
  | cleanupCall
deriving DecidableEq

/-- The call sequence of `get_remote_branches` (`git_service.py` lines
622-647): `service.clone()`, then `service.get_branches()` (which runs
`ls-remote`), then `service.cleanup()` — a working copy is created first,
despite the docstring "without cloning". -/
def get_remote_branches_calls : List GitCall :=
  [GitCall.cloneCall, GitCall.lsRemoteCall, GitCall.cleanupCall]

/-- A concrete deployment task: three log lines (fewer than the batch size of
50) followed by the terminal `SUCCESS` status update — exactly the calls
`deploy_service` makes on a short successful run.  Used to evaluate claim C3. -/
def c3_sample_run : OrchestratorState :=
  ((((OrchestratorState.log
      { deployment := { status := OrchestratorStatus.PENDING, progress := 0,
                        current_step := "pending", error_message := none },
        writer := BatchLogWriter.init 0, db_logs := [] }
      "INFO" "Starting full deployment" 1).log
      "INFO" "Deploying to 1 server group(s)" 2).log
      "INFO" "Deployment completed successfully" 3).updateStatus
      OrchestratorStatus.SUCCESS none)

instance exceptStringUnitDecEq : DecidableEq (Except String Unit)
  | Except.ok (), Except.ok () => isTrue rfl
  | Except.error a, Except.error b =>
    if h : a = b then isTrue (by rw [h])
    else isFalse (fun hc => h (Except.error.inj hc))
  | Except.ok _, Except.error _ => isFalse (fun hc => Except.noConfusion hc)
  | Except.error _, Except.ok _ => isFalse (fun hc => Except.noConfusion hc)

/-- Whether a per-server outcome is a success (used to phrase the collected
failures of the restart fan-out). -/
def outcomeOk (r : Except String Unit) : Bool :=
  match r with
  | Except.ok _ => true
  | Except.error _ => false

/-- A concrete deployment row, three servers in two groups, and an outcome
oracle failing exactly on server `b` — the scenario evaluating claim C5. -/
def c5_demo_record : DeploymentRecord :=
  { status := OrchestratorStatus.PENDING, progress := 0,
    current_step := "pending", error_message := none }

/-- See `c5_demo_record`. -/
def c5_demo_groups : List ServerGroupInfo :=
  [{ name := "g1", servers := [{ name := "a", is_active := true }, { name := "b", is_active := true }] },
   { name := "g2", servers := [{ name := "c", is_active := true }] }]

/-- See `c5_demo_record`. -/
def c5_demo_outcome : ServerInfo → Except String Unit :=
  fun t => if t.name = "b" then Except.error "exit status 1" else Except.ok ()

/-- A concrete rollback environment: artifact present on disk, restart script
configured, extraction succeeding everywhere, restart failing on server `b`.
Used to evaluate claim C1. -/
def c1_demo_env : RollbackEnv :=
  { source_id := 5, has_artifact := true,
    artifact_path := "/data/artifacts/artifact_1.zip", file_exists := true,
    deploy_script_path := some "/srv/restart.sh",
    extract_exit := fun _ => 0,
    restart_exit := fun s => if s.name = "b" then 1 else 0 }

/-- A concrete `deployment_logs` table with two deployments, used to
evaluate claim C8. -/
def c8_rows : List LogRow :=
  [{ id := 1, deployment_id := 1, content := "clone" },
   { id := 2, deployment_id := 1, content := "build" },
   { id := 3, deployment_id := 1, content := "deploy" },
   { id := 4, deployment_id := 2, content := "other" }]

/-! ## Theorems -/

theorem gate_acquire_snd (m : DeploymentConcurrencyManager) (i : Nat) :
    (m.acquire i).2 =
      if m.max_concurrent ≤ m.running_deployments.card then m
      else { m with running_deployments := insert i m.running_deployments } := by
  unfold DeploymentConcurrencyManager.acquire
  split <;> rfl

theorem gate_card_le (ops : List GateOp) (m : DeploymentConcurrencyManager)
    (h : m.running_deployments.card ≤ m.max_concurrent) :
    (runGateOps m ops).running_deployments.card ≤ (runGateOps m ops).max_concurrent := by
  induction ops generalizing m with
  | nil => exact h
  | cons op ops ih =>
    cases op with
    | acquireOp i =>
      simp only [runGateOps]
      apply ih
      rw [gate_acquire_snd]
      by_cases hc : m.max_concurrent ≤ m.running_deployments.card
      · simpa [hc] using h
      · simp only [hc, if_false]
        have h1 : (insert i m.running_deployments).card ≤ m.running_deployments.card + 1 :=
          Finset.card_insert_le _ _
        show (insert i m.running_deployments).card ≤ m.max_concurrent
        omega
    | releaseOp i =>
      simp only [runGateOps]
      apply ih
      unfold DeploymentConcurrencyManager.release
      show (m.running_deployments.erase i).card ≤ m.max_concurrent
      exact le_trans (Finset.card_erase_le) h

theorem gate_max_eq (ops : List GateOp) (m : DeploymentConcurrencyManager) :
    (runGateOps m ops).max_concurrent = m.max_concurrent := by
  induction ops generalizing m with
  | nil => rfl
  | cons op ops ih =>
    cases op with
    | acquireOp i =>
      simp only [runGateOps]
      rw [ih, gate_acquire_snd]
      split <;> rfl
    | releaseOp i =>
      simp only [runGateOps]
      rw [ih]
      rfl

/-- Claim C7: for the concurrency gate, `acquire` returns `false` exactly when
the in-flight set is at capacity, `release` is idempotent, and under any
sequence of `acquire`/`release` calls starting from the freshly initialised
gate the cardinality of the in-flight set never exceeds `max_concurrent`. -/
theorem claim_C7_concurrency_gate (maxConcurrent deploymentId : Nat)
    (ops : List GateOp) (m : DeploymentConcurrencyManager)
    (hm : m.running_deployments.card ≤ m.max_concurrent) :
    (((m.acquire deploymentId).1 = false) ↔
        m.running_deployments.card = m.max_concurrent)
    ∧ (m.release deploymentId).release deploymentId = m.release deploymentId
    ∧ (runGateOps (DeploymentConcurrencyManager.init maxConcurrent)
        ops).running_deployments.card ≤ maxConcurrent := by
  refine ⟨?_, ?_, ?_⟩
  · unfold DeploymentConcurrencyManager.acquire
    by_cases hc : m.max_concurrent ≤ m.running_deployments.card
    · simp only [hc, if_true]
      simp only [true_iff]  -- placeholder, adjusted below
      omega
    · simp only [hc, if_false]
      simp only [Bool.true_eq_false, false_iff]
      omega
  · unfold DeploymentConcurrencyManager.release
    simp [Finset.erase_idem]
  · have h := gate_card_le ops (DeploymentConcurrencyManager.init maxConcurrent)
      (by simp [DeploymentConcurrencyManager.init])
    rwa [gate_max_eq] at h

/-- Witness for claim C7 at `max_concurrent = 2` with a concrete call
sequence. -/
theorem claim_C7_concurrency_gate_witness :
    ((DeploymentConcurrencyManager.init 2).running_deployments.card ≤
        (DeploymentConcurrencyManager.init 2).max_concurrent)
    ∧ ((((DeploymentConcurrencyManager.init 2).acquire 7).1 = false) ↔
        (DeploymentConcurrencyManager.init 2).running_deployments.card =
          (DeploymentConcurrencyManager.init 2).max_concurrent)
    ∧ ((DeploymentConcurrencyManager.init 2).release 7).release 7 =
        (DeploymentConcurrencyManager.init 2).release 7
    ∧ (runGateOps (DeploymentConcurrencyManager.init 2)
        [GateOp.acquireOp 1, GateOp.acquireOp 2, GateOp.acquireOp 3,
         GateOp.releaseOp 1, GateOp.releaseOp 1]).running_deployments.card ≤ 2 := by
  have h := claim_C7_concurrency_gate 2 7
    [GateOp.acquireOp 1, GateOp.acquireOp 2, GateOp.acquireOp 3,
     GateOp.releaseOp 1, GateOp.releaseOp 1]
    (DeploymentConcurrencyManager.init 2) (by decide)
  exact ⟨by decide, h.1, h.2.1, h.2.2⟩

/-- Claim C2 (code-bug evaluation): the status → progress table of
`_update_status` is exactly the claimed one and `_update_status` stores
`progress_map status` for every status it is called with; but the
`DeploymentStatus` enum of `models/deployment.py` does not define the
members `QUEUED`, `RESTARTING` and `HEALTH_CHECKING` that the claim (and
`deploy_service.py` / `api/deployments.py` themselves) require. -/
theorem claim_C2_progress_map_and_enum :
    (∀ (d : DeploymentRecord) (s : OrchestratorStatus) (e : Option String),
        (update_status d s e).progress = progress_map s ∧ (update_status d s e).status = s)
    ∧ (progress_map OrchestratorStatus.PENDING = 0
       ∧ progress_map OrchestratorStatus.CLONING = 10
       ∧ progress_map OrchestratorStatus.BUILDING = 30
       ∧ progress_map OrchestratorStatus.UPLOADING = 60
       ∧ progress_map OrchestratorStatus.DEPLOYING = 80
       ∧ progress_map OrchestratorStatus.RESTARTING = 90
       ∧ progress_map OrchestratorStatus.HEALTH_CHECKING = 95
       ∧ progress_map OrchestratorStatus.SUCCESS = 100
       ∧ progress_map OrchestratorStatus.FAILED = 0
       ∧ progress_map OrchestratorStatus.CANCELLED = 0)
    ∧ "QUEUED" ∉ deploymentStatusMemberNames
    ∧ "RESTARTING" ∉ deploymentStatusMemberNames
    ∧ "HEALTH_CHECKING" ∉ deploymentStatusMemberNames :=
  ⟨fun _ _ _ => ⟨rfl, rfl⟩, by decide⟩

/-- Claim C3 (code-bug evaluation): a deployment that appends three log lines
and then reaches the terminal `SUCCESS` state leaves all three entries in the
batch writer's pending list and none in the durable store — `_update_status`
performs no flush, and nothing else invokes `BatchLogWriter.flush` or
`should_flush`. -/
theorem claim_C3_terminal_leaves_pending :
    c3_sample_run.deployment.status = OrchestratorStatus.SUCCESS
    ∧ c3_sample_run.db_logs = []
    ∧ c3_sample_run.writer.pending_logs.length = 3 := by decide

/-- Counterexample to claim C4 as stated: with `auto_install = False` and an
explicit install command configured, the claim's antecedent holds and the
claim requires the explicit command to be the effective one, but
`_get_install_command` resolves `None`. -/
theorem claim_C4_counterexample :
    truthyOptStr (some "pip install -r requirements.txt") = true
    ∧ get_install_command false (some "pip install -r requirements.txt") "frontend" = none
    ∧ ¬ (get_install_command false (some "pip install -r requirements.txt") "frontend"
          = some "pip install -r requirements.txt") := by decide

/-- Claim C4 as amended: when `auto_install` is true the effective install
command is the explicit one when set, otherwise the per-kind default
(`frontend → npm install`, `java → mvn dependency:resolve`,
`backend → none`); when `auto_install` is false no command is resolved even
if an explicit one is set; and whatever the install exit code, the build
step is still reached, with a warning logged exactly when a command was run
and exited non-zero. -/
theorem claim_C4_amended_install (install_script : Option String)
    (project_type : String) (install_exit : Nat) :
    get_install_command true install_script project_type
      = (if truthyOptStr install_script then install_script
         else default_install_commands project_type)
    ∧ get_install_command false install_script project_type = none
    ∧ default_install_commands "frontend" = some "npm install"
    ∧ default_install_commands "java" = some "mvn dependency:resolve"
    ∧ default_install_commands "backend" = none
    ∧ (build_install_step true install_script project_type install_exit).build_step_reached = true
    ∧ (build_install_step false install_script project_type install_exit).build_step_reached = true
    ∧ ((build_install_step true install_script project_type install_exit).warning_logged = true
        ↔ get_install_command true install_script project_type ≠ none ∧ install_exit ≠ 0) := by
  refine ⟨?_, rfl, by decide, by decide, by decide, ?_, ?_, ?_⟩
  · unfold get_install_command
    simp
  · unfold build_install_step
    simp
  · unfold build_install_step
    by_cases ht : truthyOptStr install_script <;> simp [ht]
  · unfold build_install_step
    simp only [Bool.true_or, if_true]
    cases hc : get_install_command true install_script project_type <;> simp [hc]

theorem string_append_ne_empty (a b : String) (h : a ≠ "") : a ++ b ≠ "" := by
  intro hc
  apply h
  have hdata : (a ++ b).data = [] := by rw [hc]
  rw [String.data_append] at hdata
  have ha : a.data = [] := (List.append_eq_nil.mp hdata).1
  exact String.ext ha

theorem truthy_some_of_ne (m : String) (h : m ≠ "") : truthyOptStr (some m) = true := by
  simp [truthyOptStr, h]

theorem deployServerList_first_error (outcome : ServerInfo → Except String Unit)
    (l1 : List ServerInfo) (s : ServerInfo) (l2 : List ServerInfo) (e : String)
    (hpre : ∀ t ∈ l1, t.is_active = true → outcome t = Except.ok ())
    (hs : s.is_active = true) (he : outcome s = Except.error e) :
    deployServerList outcome (l1 ++ s :: l2)
      = ((l1.filter (·.is_active)).map (·.name) ++ [s.name],
         Except.error ("Failed to deploy to " ++ s.name ++ ": " ++ e)) := by
  induction l1 with
  | nil => simp [deployServerList, hs, he]
  | cons t rest ih =>
    have ih' := ih (fun u hu hua => hpre u (List.mem_cons_of_mem t hu) hua)
    cases hb : t.is_active with
    | false => simp [deployServerList, hb, List.filter_cons, ih']
    | true =>
      have ho := hpre t (List.mem_cons_self t rest) hb
      simp [deployServerList, hb, ho, List.filter_cons, ih']

theorem deployServerList_append (outcome : ServerInfo → Except String Unit)
    (l1 l2 : List ServerInfo) :
    deployServerList outcome (l1 ++ l2) =
      (match deployServerList outcome l1 with
       | (att, Except.error e) => (att, Except.error e)
       | (att, Except.ok _) =>
         (att ++ (deployServerList outcome l2).1, (deployServerList outcome l2).2)) := by
  induction l1 with
  | nil => simp [deployServerList]
  | cons t rest ih =>
    cases hb : t.is_active with
    | false => simpa [deployServerList, hb] using ih
    | true =>
      cases ho : outcome t with
      | error e => simp [deployServerList, hb, ho]
      | ok u =>
        have h1 : deployServerList outcome ((t :: rest) ++ l2)
            = (t.name :: (deployServerList outcome (rest ++ l2)).1,
               (deployServerList outcome (rest ++ l2)).2) := by
          simp [deployServerList, hb, ho]
        have h2 : deployServerList outcome (t :: rest)
            = (t.name :: (deployServerList outcome rest).1,
               (deployServerList outcome rest).2) := by
          simp [deployServerList, hb, ho]
        rw [h1, h2, ih]
        cases hr : deployServerList outcome rest with
        | mk att res =>
          cases res <;> simp

theorem deploy_to_servers_eq_flat (groups : List ServerGroupInfo)
    (outcome : ServerInfo → Except String Unit) :
    deploy_to_servers groups outcome = deployServerList outcome (allServers groups) := by
  induction groups with
  | nil => rfl
  | cons g gs ih =>
    have hall : allServers (g :: gs) = g.servers ++ allServers gs := by
      simp [allServers]
    rw [hall, deployServerList_append]
    cases hr : deployServerList outcome g.servers with
    | mk att res =>
      cases res with
      | error e => simp [deploy_to_servers, hr]
      | ok u => simp [deploy_to_servers, hr, ih]

theorem restartServerList_eq (outcome : ServerInfo → Except String Unit)
    (l : List ServerInfo) :
    restartServerList outcome l
      = ((l.filter (·.is_active)).map (·.name),
         ((l.filter (·.is_active)).filter (fun t => !(outcomeOk (outcome t)))).map (·.name)) := by
  induction l with
  | nil => rfl
  | cons t rest ih =>
    cases hb : t.is_active with
    | false => simp [restartServerList, hb, List.filter_cons, ih]
    | true =>
      cases ho : outcome t with
      | error e => simp [restartServerList, hb, ho, List.filter_cons, ih, outcomeOk]
      | ok u => simp [restartServerList, hb, ho, List.filter_cons, ih, outcomeOk]

theorem restart_servers_eq (groups : List ServerGroupInfo)
    (outcome : ServerInfo → Except String Unit) :
    restart_servers groups outcome
      = ((activeServers groups).map (·.name),
         ((activeServers groups).filter (fun t => !(outcomeOk (outcome t)))).map (·.name)) := by
  induction groups with
  | nil => rfl
  | cons g gs ih =>
    have hact : activeServers (g :: gs)
        = g.servers.filter (·.is_active) ++ activeServers gs := by
      simp [activeServers, allServers, List.filter_append]
    simp [restart_servers, restartServerList_eq, ih, hact, List.filter_append]

/-- Counterexample to claim C5 as stated: in the restart-only flow, after
server `b` fails, the later server `c` is still attempted, and the recorded
error is the collective list of failed servers rather than the first
failure's message. -/
theorem claim_C5_counterexample :
    (run_restart_stage c5_demo_record c5_demo_groups c5_demo_outcome).2 = ["a", "b", "c"]
    ∧ c5_demo_outcome { name := "b", is_active := true } = Except.error "exit status 1"
    ∧ ({ name := "c", is_active := true } : ServerInfo) ∈ allServers c5_demo_groups
    ∧ (run_restart_stage c5_demo_record c5_demo_groups c5_demo_outcome).1.error_message
        = some "Failed to restart servers: b" := by decide

/-- Claim C5 as amended: in the FULL deploying fan-out the first failing
server halts the traversal — the deployment becomes FAILED with that
server's error in `error_message` and no later server is attempted — while
the restart-only flow attempts every active server, collects the failures,
and fails at the end with the list of all failed server names. -/
theorem claim_C5_corrected (d : DeploymentRecord) (groups : List ServerGroupInfo)
    (outcome : ServerInfo → Except String Unit)
    (l1 l2 : List ServerInfo) (s : ServerInfo) (e : String)
    (hsplit : allServers groups = l1 ++ s :: l2)
    (hpre : ∀ t ∈ l1, t.is_active = true → outcome t = Except.ok ())
    (hs : s.is_active = true) (he : outcome s = Except.error e) :
    ((run_deploying_stage d groups outcome).1.status = OrchestratorStatus.FAILED
     ∧ (run_deploying_stage d groups outcome).1.error_message
         = some ("Failed to deploy to " ++ s.name ++ ": " ++ e)
     ∧ (run_deploying_stage d groups outcome).2
         = (l1.filter (·.is_active)).map (·.name) ++ [s.name])
    ∧ ((run_restart_stage d groups outcome).2 = (activeServers groups).map (·.name)
       ∧ (run_restart_stage d groups outcome).1.status = OrchestratorStatus.FAILED
       ∧ (run_restart_stage d groups outcome).1.error_message
           = some ("Failed to restart servers: " ++ String.intercalate ", "
               (((activeServers groups).filter (fun t => !(outcomeOk (outcome t)))).map (·.name)))) := by
  have hds : deploy_to_servers groups outcome
      = ((l1.filter (·.is_active)).map (·.name) ++ [s.name],
         Except.error ("Failed to deploy to " ++ s.name ++ ": " ++ e)) := by
    rw [deploy_to_servers_eq_flat, hsplit]
    exact deployServerList_first_error outcome l1 s l2 e hpre hs he
  have htruthy1 : truthyOptStr (some ("Failed to deploy to " ++ s.name ++ ": " ++ e)) = true := by
    apply truthy_some_of_ne
    exact string_append_ne_empty _ _ (string_append_ne_empty _ _
      (string_append_ne_empty _ _ (by decide)))
  have hrs := restart_servers_eq groups outcome
  have hsmem : s ∈ activeServers groups := by
    rw [activeServers, hsplit]
    simp [List.filter_append, List.filter_cons, hs]
  have hfailmem : s ∈ (activeServers groups).filter (fun t => !(outcomeOk (outcome t))) := by
    rw [List.mem_filter]
    exact ⟨hsmem, by simp [he, outcomeOk]⟩
  have hfailne : ((activeServers groups).filter (fun t => !(outcomeOk (outcome t)))).map (·.name) ≠ [] := by
    intro hc
    rw [List.map_eq_nil_iff] at hc
    rw [hc] at hfailmem
    exact List.not_mem_nil s hfailmem
  have htruthy2 : truthyOptStr (some ("Failed to restart servers: " ++ String.intercalate ", "
      (((activeServers groups).filter (fun t => !(outcomeOk (outcome t)))).map (·.name)))) = true := by
    apply truthy_some_of_ne
    exact string_append_ne_empty _ _ (by decide)
  have hrr : run_restart_stage d groups outcome
      = (update_status d OrchestratorStatus.FAILED
          (some ("Failed to restart servers: " ++ String.intercalate ", "
            (((activeServers groups).filter (fun t => !(outcomeOk (outcome t)))).map (·.name)))),
         (activeServers groups).map (·.name)) := by
    simp only [run_restart_stage, hrs]
    rw [if_neg hfailne]
  refine ⟨⟨?_, ?_, ?_⟩, ?_, ?_, ?_⟩
  · simp [run_deploying_stage, hds, update_status]
  · simp [run_deploying_stage, hds, update_status, htruthy1]
  · simp [run_deploying_stage, hds]
  · rw [hrr]
  · rw [hrr]
    simp [update_status]
  · rw [hrr]
    simp [update_status, htruthy2]

/-- Witness for the amended claim C5 at the concrete two-group scenario. -/
theorem claim_C5_corrected_witness :
    ((run_deploying_stage c5_demo_record c5_demo_groups c5_demo_outcome).2 = ["a", "b"]
     ∧ (run_restart_stage c5_demo_record c5_demo_groups c5_demo_outcome).2 = ["a", "b", "c"]) := by
  have h := claim_C5_corrected c5_demo_record c5_demo_groups c5_demo_outcome
    [{ name := "a", is_active := true }] [{ name := "c", is_active := true }]
    { name := "b", is_active := true } "exit status 1"
    (by decide) (by decide) (by decide) (by decide)
  refine ⟨?_, ?_⟩
  · rw [h.1.2.2]
    decide
  · rw [h.2.1]
    decide

/-- Counterexample to claim C6 as stated: a prior directory existed, unzip
failed without creating the target directory, and the restore `mv` also
failed — then nothing is in place at the target path (the original survives
only at the backup path), contradicting the claim's "either the new
directory or the original is in place at the target path". -/
theorem claim_C6_counterexample :
    (deploy_frontend_to_server "/srv/web/app" "artifact_1.zip" "0101-120000"
      { prior_exists := true, mkdir_exit := 0, backup_exit := 0, unzip_exit := 1,
        unzip_stderr := "bad zip", unzip_creates_dir := false, restore_exit := 1 }).fs.target
      = TargetContent.absent
    ∧ (deploy_frontend_to_server "/srv/web/app" "artifact_1.zip" "0101-120000"
        { prior_exists := true, mkdir_exit := 0, backup_exit := 0, unzip_exit := 1,
          unzip_stderr := "bad zip", unzip_creates_dir := false, restore_exit := 1 }).restore_attempted
      = true
    ∧ (deploy_frontend_to_server "/srv/web/app" "artifact_1.zip" "0101-120000"
        { prior_exists := true, mkdir_exit := 0, backup_exit := 0, unzip_exit := 1,
          unzip_stderr := "bad zip", unzip_creates_dir := false, restore_exit := 1 }).fs.backup
      = true := by decide

/-- Claim C6 as amended: for a frontend deployment whose remote unzip fails
(after a successful mkdir and backup step): the deployment fails, the staging
zip is deleted, a restore is attempted exactly when a backup was made, on
restore failure the exact manual restore command is logged, and when a prior
directory existed either some directory (new or restored original) is at the
target path or the original still exists at the backup path — the original
content is never lost. -/
theorem claim_C6_corrected (upload_path artifact_name ts : String) (env : FrontendEnv)
    (hvalid : ¬(posixDirname upload_path = "" ∨ posixDirname upload_path = upload_path))
    (hmk : env.mkdir_exit = 0) (hbk : env.backup_exit = 0) (hz : env.unzip_exit ≠ 0) :
    (deploy_frontend_to_server upload_path artifact_name ts env).ok = false
    ∧ (deploy_frontend_to_server upload_path artifact_name ts env).fs.staging_zip = false
    ∧ (deploy_frontend_to_server upload_path artifact_name ts env).restore_attempted
        = env.prior_exists
    ∧ (env.prior_exists = true → env.restore_exit ≠ 0 →
        (deploy_frontend_to_server upload_path artifact_name ts env).manual_restore_logged
          = some ("mv \"" ++ posixJoin (posixDirname upload_path)
                    (posixBasename upload_path ++ "-" ++ ts)
                  ++ "\" \"" ++ upload_path ++ "\""))
    ∧ (env.prior_exists = true →
        ((deploy_frontend_to_server upload_path artifact_name ts env).fs.target
            ≠ TargetContent.absent
         ∨ (deploy_frontend_to_server upload_path artifact_name ts env).fs.backup = true)) := by
  cases hp : env.prior_exists with
  | false =>
    refine ⟨?_, ?_, ?_, ?_, ?_⟩ <;>
      simp [deploy_frontend_to_server, hvalid, hmk, hbk, hz, hp]
  | true =>
    by_cases hre : env.restore_exit = 0
    · cases hcd : env.unzip_creates_dir with
      | false =>
        refine ⟨?_, ?_, ?_, ?_, ?_⟩ <;>
          simp [deploy_frontend_to_server, hvalid, hmk, hbk, hz, hp, hre, hcd]
      | true =>
        refine ⟨?_, ?_, ?_, ?_, ?_⟩ <;>
          simp [deploy_frontend_to_server, hvalid, hmk, hbk, hz, hp, hre, hcd]
    · cases hcd : env.unzip_creates_dir with
      | false =>
        refine ⟨?_, ?_, ?_, ?_, ?_⟩ <;>
          simp [deploy_frontend_to_server, hvalid, hmk, hbk, hz, hp, hre, hcd]
      | true =>
        refine ⟨?_, ?_, ?_, ?_, ?_⟩ <;>
          simp [deploy_frontend_to_server, hvalid, hmk, hbk, hz, hp, hre, hcd]

/-- Witness for the amended claim C6: unzip and restore both fail on a real
path; the deployment fails and the original survives (here, at the backup
path). -/
theorem claim_C6_corrected_witness :
    (deploy_frontend_to_server "/srv/web/app" "artifact_1.zip" "0101-120000"
      { prior_exists := true, mkdir_exit := 0, backup_exit := 0, unzip_exit := 1,
        unzip_stderr := "bad zip", unzip_creates_dir := false, restore_exit := 1 }).ok = false
    ∧ ((deploy_frontend_to_server "/srv/web/app" "artifact_1.zip" "0101-120000"
        { prior_exists := true, mkdir_exit := 0, backup_exit := 0, unzip_exit := 1,
          unzip_stderr := "bad zip", unzip_creates_dir := false, restore_exit := 1 }).fs.target
          ≠ TargetContent.absent
       ∨ (deploy_frontend_to_server "/srv/web/app" "artifact_1.zip" "0101-120000"
          { prior_exists := true, mkdir_exit := 0, backup_exit := 0, unzip_exit := 1,
            unzip_stderr := "bad zip", unzip_creates_dir := false, restore_exit := 1 }).fs.backup
          = true) := by
  have h := claim_C6_corrected "/srv/web/app" "artifact_1.zip" "0101-120000"
    { prior_exists := true, mkdir_exit := 0, backup_exit := 0, unzip_exit := 1,
      unzip_stderr := "bad zip", unzip_creates_dir := false, restore_exit := 1 }
    (by decide) rfl rfl (by decide)
  exact ⟨h.1, h.2.2.2.2 rfl⟩

theorem rollback_server_no_clone (env : RollbackEnv) (s : ServerInfo)
    (r : List RollbackStep × List String)
    (h : rollback_deploy_to_server env s = Except.ok r) :
    RollbackStep.clone ∉ r.1 ∧ RollbackStep.build ∉ r.1 := by
  unfold rollback_deploy_to_server at h
  split at h
  · exact Except.noConfusion h
  · split at h
    · split at h
      · have heq := Except.ok.inj h
        subst heq
        constructor <;> simp
      · have heq := Except.ok.inj h
        subst heq
        constructor <;> simp
    · have heq := Except.ok.inj h
      subst heq
      constructor <;> simp

theorem rollbackServerList_no_clone (env : RollbackEnv) (l : List ServerInfo)
    (r : List RollbackStep × List String)
    (h : rollbackServerList env l = Except.ok r) :
    RollbackStep.clone ∉ r.1 ∧ RollbackStep.build ∉ r.1 := by
  induction l generalizing r with
  | nil =>
    have heq := Except.ok.inj h
    subst heq
    constructor <;> decide
  | cons s rest ih =>
    unfold rollbackServerList at h
    split at h
    · exact ih r h
    · cases hsrv : rollback_deploy_to_server env s with
      | error e => rw [hsrv] at h; exact Except.noConfusion h
      | ok r1 =>
        rw [hsrv] at h
        cases hrest : rollbackServerList env rest with
        | error e => rw [hrest] at h; exact Except.noConfusion h
        | ok r2 =>
          rw [hrest] at h
          have heq := Except.ok.inj h
          subst heq
          have h1 := rollback_server_no_clone env s r1 hsrv
          have h2 := ih r2 hrest
          constructor <;> · simp [List.mem_append]; tauto

theorem rollbackGroups_no_clone (env : RollbackEnv) (groups : List ServerGroupInfo)
    (r : List RollbackStep × List String)
    (h : rollbackGroups env groups = Except.ok r) :
    RollbackStep.clone ∉ r.1 ∧ RollbackStep.build ∉ r.1 := by
  induction groups generalizing r with
  | nil =>
    have heq := Except.ok.inj h
    subst heq
    constructor <;> decide
  | cons g gs ih =>
    unfold rollbackGroups at h
    cases hsrv : rollbackServerList env g.servers with
    | error e => rw [hsrv] at h; exact Except.noConfusion h
    | ok r1 =>
      rw [hsrv] at h
      cases hrest : rollbackGroups env gs with
      | error e => rw [hrest] at h; exact Except.noConfusion h
      | ok r2 =>
        rw [hrest] at h
        have heq := Except.ok.inj h
        subst heq
        have h1 := rollbackServerList_no_clone env g.servers r1 hsrv
        have h2 := ih r2 hrest
        constructor <;> · simp [List.mem_append]; tauto

theorem rollback_server_ok (env : RollbackEnv) (s : ServerInfo)
    (hx : env.extract_exit s = 0) :
    rollback_deploy_to_server env s = Except.ok (
      if truthyOptStr env.deploy_script_path then
        ([RollbackStep.uploadArtifact s.name, RollbackStep.extract s.name,
          RollbackStep.restartScript s.name],
         if env.restart_exit s ≠ 0 then ["Restart script failed on " ++ s.name] else [])
      else
        ([RollbackStep.uploadArtifact s.name, RollbackStep.extract s.name], [])) := by
  unfold rollback_deploy_to_server
  rw [if_neg (by simp [hx])]
  by_cases htr : truthyOptStr env.deploy_script_path <;>
    by_cases hrx : env.restart_exit s ≠ 0 <;>
      simp [htr, hrx]

theorem rollbackServerList_ok_of_extract (env : RollbackEnv) (l : List ServerInfo)
    (h : ∀ s ∈ l, s.is_active = true → env.extract_exit s = 0) :
    ∃ r, rollbackServerList env l = Except.ok r
      ∧ ∀ s ∈ l, s.is_active = true → truthyOptStr env.deploy_script_path = true →
          env.restart_exit s ≠ 0 → ("Restart script failed on " ++ s.name) ∈ r.2 := by
  induction l with
  | nil => exact ⟨([], []), rfl, by simp⟩
  | cons s rest ih =>
    obtain ⟨r2, hr2, hmem2⟩ := ih (fun t ht hta => h t (List.mem_cons_of_mem s ht) hta)
    cases hb : s.is_active with
    | false =>
      refine ⟨r2, ?_, ?_⟩
      · unfold rollbackServerList
        rw [if_pos (by simp [hb])]
        exact hr2
      · intro t ht hta htr hrx
        rcases List.mem_cons.mp ht with hteq | htmem
        · subst hteq; rw [hb] at hta; exact Bool.noConfusion hta
        · exact hmem2 t htmem hta htr hrx
    | true =>
      have hx := h s (List.mem_cons_self s rest) hb
      have hok := rollback_server_ok env s hx
      by_cases htr : truthyOptStr env.deploy_script_path
      · by_cases hrx : env.restart_exit s ≠ 0
        · refine ⟨([RollbackStep.uploadArtifact s.name, RollbackStep.extract s.name,
              RollbackStep.restartScript s.name] ++ r2.1,
              ["Restart script failed on " ++ s.name] ++ r2.2), ?_, ?_⟩
          · unfold rollbackServerList
            rw [if_neg (by simp [hb]), hok, if_pos htr, if_pos hrx, hr2]
          · intro t ht hta htr2 hrx2
            rcases List.mem_cons.mp ht with hteq | htmem
            · subst hteq; simp
            · simp only [List.mem_append]
              exact Or.inr (hmem2 t htmem hta htr2 hrx2)
        · refine ⟨([RollbackStep.uploadArtifact s.name, RollbackStep.extract s.name,
              RollbackStep.restartScript s.name] ++ r2.1, [] ++ r2.2), ?_, ?_⟩
          · unfold rollbackServerList
            rw [if_neg (by simp [hb]), hok, if_pos htr, if_neg hrx, hr2]
          · intro t ht hta htr2 hrx2
            rcases List.mem_cons.mp ht with hteq | htmem
            · subst hteq; exact absurd hrx2 hrx
            · simp only [List.mem_append]
              exact Or.inr (hmem2 t htmem hta htr2 hrx2)
      · refine ⟨([RollbackStep.uploadArtifact s.name, RollbackStep.extract s.name] ++ r2.1,
            [] ++ r2.2), ?_, ?_⟩
        · unfold rollbackServerList
          rw [if_neg (by simp [hb]), hok, if_neg htr, hr2]
        · intro t ht hta htr2 hrx2
          exact absurd htr2 htr

theorem rollbackGroups_ok_of_extract (env : RollbackEnv) (groups : List ServerGroupInfo)
    (h : ∀ s ∈ activeServers groups, env.extract_exit s = 0) :
    ∃ r, rollbackGroups env groups = Except.ok r
      ∧ ∀ s ∈ activeServers groups, truthyOptStr env.deploy_script_path = true →
          env.restart_exit s ≠ 0 → ("Restart script failed on " ++ s.name) ∈ r.2 := by
  induction groups with
  | nil => exact ⟨([], []), rfl, by simp [activeServers, allServers]⟩
  | cons g gs ih =>
    have hact : activeServers (g :: gs)
        = g.servers.filter (·.is_active) ++ activeServers gs := by
      simp [activeServers, allServers, List.filter_append]
    have hg : ∀ s ∈ g.servers, s.is_active = true → env.extract_exit s = 0 := by
      intro s hs hsa
      apply h
      rw [hact, List.mem_append]
      exact Or.inl (List.mem_filter.mpr ⟨hs, hsa⟩)
    have hgs : ∀ s ∈ activeServers gs, env.extract_exit s = 0 := by
      intro s hs
      apply h
      rw [hact, List.mem_append]
      exact Or.inr hs
    obtain ⟨r1, hr1, hmem1⟩ := rollbackServerList_ok_of_extract env g.servers hg
    obtain ⟨r2, hr2, hmem2⟩ := ih hgs
    refine ⟨(r1.1 ++ r2.1, r1.2 ++ r2.2), ?_, ?_⟩
    · unfold rollbackGroups
      rw [hr1, hr2]
    · intro s hs htr hrx
      rw [hact, List.mem_append] at hs
      simp only [List.mem_append]
      rcases hs with hs1 | hs2
      · have := List.mem_filter.mp hs1
        exact Or.inl (hmem1 s this.1 this.2 htr hrx)
      · exact Or.inr (hmem2 s hs2 htr hrx)

/-- Counterexample to claim C1 as stated: on the same server inputs, the
remote command sequence the rollback driver executes (`mkdir && tar -xzf
/tmp/... && rm`, then `bash <path>`) is not the per-server command sequence
of the section-4.8 fan-out (`mkdir -p`, `unzip -o ... -d ...`, then the
quoted `cd`+`bash` restart command). -/
theorem claim_C1_counterexample :
    rollback_server_commands "/srv/app" "artifact_1.zip" (some "/srv/restart.sh")
      ≠ deploy_backend_server_commands "/srv/app" "artifact_1.zip" (some "/srv/restart.sh") := by
  decide

/-- Claim C1 as amended: the rollback driver skips clone and build on every
path and runs only its own per-server fan-out with the source deployment's
artifact; a missing artifact file is fatal (target deployment `FAILED` with
the "Artifact file not found" error); and when extraction succeeds on every
active server the rollback succeeds even if restart scripts exit non-zero —
those produce warnings only. -/
theorem claim_C1_corrected (groups : List ServerGroupInfo) (env : RollbackEnv)
    (hart : env.has_artifact = true) :
    (RollbackStep.clone ∉ (RollbackService.rollback groups env).steps
     ∧ RollbackStep.build ∉ (RollbackService.rollback groups env).steps)
    ∧ (env.file_exists = false →
        (RollbackService.rollback groups env).status = ModelDeploymentStatus.FAILED
        ∧ (RollbackService.rollback groups env).error_message
            = some ("Artifact file not found: " ++ env.artifact_path))
    ∧ (env.file_exists = true →
        (∀ s ∈ activeServers groups, env.extract_exit s = 0) →
        (RollbackService.rollback groups env).status = ModelDeploymentStatus.SUCCESS
        ∧ (∀ s ∈ activeServers groups, truthyOptStr env.deploy_script_path = true →
            env.restart_exit s ≠ 0 →
            ("Restart script failed on " ++ s.name)
              ∈ (RollbackService.rollback groups env).warnings)) := by
  refine ⟨?_, ?_, ?_⟩
  · unfold RollbackService.rollback
    rw [if_neg (by simp [hart])]
    cases hf : env.file_exists with
    | false => simp
    | true =>
      simp only [Bool.true_eq_false, if_false]
      cases hgr : rollbackGroups env groups with
      | error e => simp
      | ok r =>
        have := rollbackGroups_no_clone env groups r hgr
        simpa using this
  · intro hf
    unfold RollbackService.rollback
    rw [if_neg (by simp [hart]), if_pos (by simp [hf])]
    exact ⟨rfl, rfl⟩
  · intro hf hx
    obtain ⟨r, hr, hmem⟩ := rollbackGroups_ok_of_extract env groups hx
    unfold RollbackService.rollback
    rw [if_neg (by simp [hart]), if_neg (by simp [hf]), hr]
    exact ⟨rfl, fun s hs htr hrx => hmem s hs htr hrx⟩

/-- Witness for the amended claim C1: a rollback over two groups where every
extraction succeeds and the restart script fails on server `b` ends in
`SUCCESS` with the corresponding warning recorded. -/
theorem claim_C1_corrected_witness :
    (RollbackService.rollback c5_demo_groups c1_demo_env).status = ModelDeploymentStatus.SUCCESS
    ∧ ("Restart script failed on b") ∈ (RollbackService.rollback c5_demo_groups c1_demo_env).warnings := by
  have h := claim_C1_corrected c5_demo_groups c1_demo_env rfl
  have h3 := h.2.2 rfl (by intro s hs; rfl)
  refine ⟨h3.1, ?_⟩
  have := h3.2 { name := "b", is_active := true } (by decide) (by decide) (by decide)
  simpa using this

theorem splitOnChar_chars (sep : Char) (l : List Char) (p : List Char)
    (hp : p ∈ splitOnChar sep l) (c : Char) (hc : c ∈ p) : c ∈ l := by
  induction l generalizing p with
  | nil =>
    simp only [splitOnChar, List.mem_singleton] at hp
    subst hp
    simp at hc
  | cons a rest ih =>
    unfold splitOnChar at hp
    by_cases ha : a = sep
    · rw [if_pos ha] at hp
      rcases List.mem_cons.mp hp with h1 | h2
      · subst h1; simp at hc
      · exact List.mem_cons_of_mem a (ih p h2 hc)
    · rw [if_neg ha] at hp
      cases hs : splitOnChar sep rest with
      | nil =>
        rw [hs] at hp
        simp only [List.mem_singleton] at hp
        subst hp
        rcases List.mem_cons.mp hc with hca | hcn
        · subst hca; exact List.mem_cons_self _ _
        · simp at hcn
      | cons q qs =>
        rw [hs] at hp
        rcases List.mem_cons.mp hp with h1 | h2
        · subst h1
          rcases List.mem_cons.mp hc with hca | hcq
          · subst hca; exact List.mem_cons_self _ _
          · exact List.mem_cons_of_mem a
              (ih q (by rw [hs]; exact List.mem_cons_self q qs) hcq)
        · exact List.mem_cons_of_mem a
            (ih p (by rw [hs]; exact List.mem_cons_of_mem q h2) hc)

theorem joinSlash_chars (ps : List (List Char)) (c : Char) (hc : c ∈ joinSlash ps) :
    (∃ p ∈ ps, c ∈ p) ∨ c = '/' := by
  induction ps with
  | nil => simp [joinSlash] at hc
  | cons p qs ih =>
    cases qs with
    | nil =>
      simp only [joinSlash] at hc
      exact Or.inl ⟨p, List.mem_cons_self p [], hc⟩
    | cons q rs =>
      have hj : joinSlash (p :: q :: rs) = p ++ '/' :: joinSlash (q :: rs) := rfl
      rw [hj] at hc
      rcases List.mem_append.mp hc with h1 | h2
      · exact Or.inl ⟨p, List.mem_cons_self p (q :: rs), h1⟩
      · rcases List.mem_cons.mp h2 with hsl | hrest
        · exact Or.inr hsl
        · rcases ih hrest with ⟨r, hr, hcr⟩ | hsl
          · exact Or.inl ⟨r, List.mem_cons_of_mem p hr, hcr⟩
          · exact Or.inr hsl

theorem getLastD_chars (ps : List (List Char)) (d : List Char) (c : Char)
    (hc : c ∈ ps.getLastD d) : (∃ p ∈ ps, c ∈ p) ∨ c ∈ d := by
  induction ps generalizing d with
  | nil => exact Or.inr hc
  | cons p qs ih =>
    rw [List.getLastD_cons] at hc
    rcases ih p hc with ⟨r, hr, hcr⟩ | hcd
    · exact Or.inl ⟨r, List.mem_cons_of_mem p hr, hcr⟩
    · exact Or.inl ⟨p, List.mem_cons_self p qs, hcd⟩

theorem pathComponents_chars (s : List Char) (p : List Char)
    (hp : p ∈ pathComponents s) (c : Char) (hc : c ∈ p) : c ∈ s := by
  have h1 := (List.mem_filter.mp hp).1
  exact splitOnChar_chars '/' s p h1 c hc

theorem pathComponents_mem_ne_nil (s : List Char) (p : List Char)
    (hp : p ∈ pathComponents s) : p ≠ [] := by
  have h2 := (List.mem_filter.mp hp).2
  intro hcon
  subst hcon
  simp at h2

theorem pathRoot_chars (s : List Char) (c : Char) (hc : c ∈ pathRoot s) : c = '/' := by
  unfold pathRoot at hc
  split at hc
  · rcases List.mem_cons.mp hc with h | h
    · exact h
    · simpa using h
  · split at hc
    · simpa using hc
    · simp at hc

theorem pathName_chars (s : List Char) (c : Char) (hc : c ∈ pathName s) : c ∈ s := by
  unfold pathName at hc
  rcases getLastD_chars (pathComponents s) [] c hc with ⟨p, hp, hcp⟩ | hcd
  · exact pathComponents_chars s p hp c hcp
  · simp at hcd

theorem pathParent_chars (s : List Char) (c : Char) (hc : c ∈ pathParent s) :
    c ∈ s ∨ c = '/' ∨ c = '.' := by
  simp only [pathParent] at hc
  split at hc
  · split at hc
    · simp only [List.mem_singleton] at hc
      exact Or.inr (Or.inr hc)
    · exact Or.inr (Or.inl (pathRoot_chars s c hc))
  · rcases List.mem_append.mp hc with h1 | h2
    · exact Or.inr (Or.inl (pathRoot_chars s c h1))
    · rcases joinSlash_chars _ c h2 with ⟨p, hp, hcp⟩ | hsl
      · have hpc : p ∈ pathComponents s :=
          (List.dropLast_sublist (pathComponents s)).subset hp
        exact Or.inl (pathComponents_chars s p hpc c hcp)
      · exact Or.inr (Or.inl hsl)

theorem joinSlash_ne_nil (ps : List (List Char)) (hne : ps ≠ [])
    (hall : ∀ p ∈ ps, p ≠ []) : joinSlash ps ≠ [] := by
  cases ps with
  | nil => exact absurd rfl hne
  | cons p qs =>
    cases qs with
    | nil => exact hall p (List.mem_cons_self p [])
    | cons q rs =>
      have hj : joinSlash (p :: q :: rs) = p ++ '/' :: joinSlash (q :: rs) := rfl
      rw [hj]
      intro hcon
      have := List.append_eq_nil.mp hcon
      exact List.noConfusion this.2

theorem pathParent_ne_nil (s : List Char) : pathParent s ≠ [] := by
  simp only [pathParent]
  split
  · split
    · simp
    · rename_i hroot
      exact hroot
  · rename_i hcomps
    intro hcon
    have h2 := (List.append_eq_nil.mp hcon).2
    exact joinSlash_ne_nil _ hcomps
      (fun p hp => pathComponents_mem_ne_nil s p
        ((List.dropLast_sublist (pathComponents s)).subset hp)) h2

theorem working_dir_eq (cs : List Char) :
    (if pathIsAbsolute cs = true then pathParent cs
     else (if pathParent cs = [] then ['.'] else pathParent cs)) = pathParent cs := by
  split
  · rfl
  · rw [if_neg (pathParent_ne_nil cs)]

theorem command_data (wd nm : List Char) :
    (("cd \"" ++ String.mk wd ++ "\" && bash \"./" ++ String.mk nm ++ "\"") : String).data
      = "cd \"".data ++ (wd ++ ("\" && bash \"./".data ++ (nm ++ "\"".data))) := by
  simp [String.data_append]

/-- Claim C10: for every accepted script path (non-empty, non-whitespace, no
dangerous character — otherwise a `ValueError`), the produced remote command
is exactly `cd "<working_dir>" && bash "./<script_name>"`, with
`working_dir` the path's parent (`.` for a bare name) and `script_name` its
basename; moreover the command contains no shell metacharacter from the
rejected set other than the two `&` of the fixed `&&`, so no input can
splice additional shell commands into it. -/
theorem claim_C10_script_command (script_path : String) (info : ScriptExecutionInfo)
    (h : get_script_execution_info script_path = Except.ok info) :
    info.command = "cd \"" ++ info.working_dir ++ "\" && bash \"./" ++ info.script_name ++ "\""
    ∧ info.working_dir = String.mk (pathParent script_path.data)
    ∧ info.script_name = String.mk (pathName script_path.data)
    ∧ (∀ c ∈ dangerous_chars, c ≠ '&' → c ∉ info.command.data)
    ∧ info.command.data.count '&' = 2 := by
  unfold get_script_execution_info at h
  split at h
  · exact Except.noConfusion h
  · split at h
    · exact Except.noConfusion h
    · rename_i hempty hdanger
      have heq := Except.ok.inj h
      subst heq
      have hno : ∀ c ∈ script_path.data, c ∉ dangerous_chars := by
        intro c hcs hcd
        apply hdanger
        rw [List.any_eq_true]
        exact ⟨c, hcs, List.elem_eq_true_of_mem hcd⟩
      have hparent : ∀ c ∈ pathParent script_path.data, c ∈ script_path.data ∨ c = '/' ∨ c = '.' :=
        fun c hc => pathParent_chars script_path.data c hc
      have hname : ∀ c ∈ pathName script_path.data, c ∈ script_path.data :=
        fun c hc => pathName_chars script_path.data c hc
      simp only [working_dir_eq]
      refine ⟨by trivial, by trivial, by trivial, ?_, ?_⟩
      · intro c hcd hcne
        rw [command_data]
        have hlit : ∀ c ∈ dangerous_chars, c ≠ '&' →
            c ∉ "cd \"".data ∧ c ∉ "\" && bash \"./".data ∧ c ∉ "\"".data
              ∧ c ≠ '/' ∧ c ≠ '.' := by decide
        obtain ⟨hl1, hl2, hl3, hl4, hl5⟩ := hlit c hcd hcne
        intro hcmem
        rcases List.mem_append.mp hcmem with hm | hm
        · exact hl1 hm
        rcases List.mem_append.mp hm with hm | hm
        · rcases hparent c hm with hin | hsl | hdot
          · exact hno c hin hcd
          · exact hl4 hsl
          · exact hl5 hdot
        rcases List.mem_append.mp hm with hm | hm
        · exact hl2 hm
        rcases List.mem_append.mp hm with hm | hm
        · exact hno c (hname c hm) hcd
        · exact hl3 hm
      · rw [command_data]
        have hpz : (pathParent script_path.data).count '&' = 0 := by
          rw [List.count_eq_zero]
          intro hmem
          rcases hparent '&' hmem with hin | hsl | hdot
          · exact hno '&' hin (by decide)
          · exact absurd hsl (by decide)
          · exact absurd hdot (by decide)
        have hnz : (pathName script_path.data).count '&' = 0 := by
          rw [List.count_eq_zero]
          intro hmem
          exact hno '&' (hname '&' hmem) (by decide)
        simp [List.count_append, hpz, hnz]

/-- Witness for claim C10 at the relative path `scripts/restart.sh`. -/
theorem claim_C10_script_command_witness :
    ("cd \"scripts\" && bash \"./restart.sh\"" : String).data.count '&' = 2
    ∧ (';' : Char) ∉ ("cd \"scripts\" && bash \"./restart.sh\"" : String).data := by
  have h := claim_C10_script_command "scripts/restart.sh"
    { working_dir := "scripts",
      command := "cd \"scripts\" && bash \"./restart.sh\"",
      script_name := "restart.sh" }
    rfl
  exact ⟨h.2.2.2.2, h.2.2.2.1 ';' (by decide) (by decide)⟩

/-- Counterexample to claim C9 as stated: a remote-refs listing whose two
lines name the same branch yields a duplicated (not deduplicated) result,
and `get_remote_branches` performs a `clone` before listing — a working
copy is required, contradicting "requiring no working copy". -/
theorem pyCharsLe_total (as bs : List Char) :
    pyCharsLe as bs = true ∨ pyCharsLe bs as = true := by
  induction as generalizing bs with
  | nil => left; rfl
  | cons x xs ih =>
    cases bs with
    | nil => right; rfl
    | cons y ys =>
      rcases lt_trichotomy x y with hxy | heq | hyx
      · left; simp [pyCharsLe, hxy]
      · subst heq
        rcases ih ys with h | h
        · left; simp [pyCharsLe, lt_irrefl, h]
        · right; simp [pyCharsLe, lt_irrefl, h]
      · right
        have hny : ¬ x < y := lt_asymm hyx
        simp [pyCharsLe, hyx, hny]

theorem pyCharsLe_trans (as bs cs : List Char) (h1 : pyCharsLe as bs = true)
    (h2 : pyCharsLe bs cs = true) : pyCharsLe as cs = true := by
  induction as generalizing bs cs with
  | nil => rfl
  | cons x xs ih =>
    cases bs with
    | nil => exact absurd h1 (by simp [pyCharsLe])
    | cons y ys =>
      cases cs with
      | nil => exact absurd h2 (by simp [pyCharsLe])
      | cons z zs =>
        rcases lt_trichotomy x y with hxy | hxy | hxy
        · rcases lt_trichotomy y z with hyz | hyz | hyz
          · simp [pyCharsLe, lt_trans hxy hyz]
          · subst hyz; simp [pyCharsLe, hxy]
          · exact absurd h2 (by simp [pyCharsLe, lt_asymm hyz, hyz])
        · subst hxy
          rcases lt_trichotomy x z with hxz | hxz | hxz
          · simp [pyCharsLe, hxz]
          · subst hxz
            have t1 : pyCharsLe xs ys = true := by
              simpa [pyCharsLe, lt_irrefl] using h1
            have t2 : pyCharsLe ys zs = true := by
              simpa [pyCharsLe, lt_irrefl] using h2
            simp [pyCharsLe, lt_irrefl, ih ys zs t1 t2]
          · exact absurd h2 (by simp [pyCharsLe, lt_asymm hxz, hxz])
        · exact absurd h1 (by simp [pyCharsLe, lt_asymm hxy, hxy])

instance pyStrLeIsTotal : IsTotal String (fun a b => pyStrLe a b = true) :=
  ⟨fun a b => pyCharsLe_total a.data b.data⟩

instance pyStrLeIsTrans : IsTrans String (fun a b => pyStrLe a b = true) :=
  ⟨fun a b c h1 h2 => pyCharsLe_trans a.data b.data c.data h1 h2⟩

theorem claim_C9_counterexample :
    get_branches_sorted "aaa\trefs/heads/x\nbbb\trefs/heads/x" = ["x", "x"]
    ∧ ¬ (["x", "x"] : List String).Nodup
    ∧ GitCall.cloneCall ∈ get_remote_branches_calls := by
  refine ⟨by decide, by decide, by decide⟩

/-- Claim C9 as amended: the parsed branch list is sorted; every returned
name comes from a `refs/heads/` line of the listing (so the symbolic `HEAD`
line contributes nothing); but duplicates are not removed, and the listing
functions require a cloned working copy — `get_branches` raises without one
and `get_remote_branches` clones first. -/
theorem claim_C9_corrected (refs_output : String) :
    List.Sorted (fun a b : String => pyStrLe a b = true) (get_branches_sorted refs_output)
    ∧ (∀ b ∈ get_branches_sorted refs_output,
        ∃ line ∈ splitOnChar '\n' refs_output.data, parse_branch_line line = some b)
    ∧ (∀ (line : List Char) (b : String), parse_branch_line line = some b →
        ∃ h r, splitOnChar '\t' line = [h, r] ∧ refsHeadsPat.isPrefixOf r = true)
    ∧ GitService.get_branches false refs_output
        = Except.error "Repository not initialized. Call clone() first."
    ∧ GitCall.cloneCall ∈ get_remote_branches_calls := by
  refine ⟨?_, ?_, ?_, rfl, by decide⟩
  · exact List.sorted_insertionSort _ _
  · intro b hb
    have hb2 : b ∈ get_branches_parse refs_output :=
      (List.perm_insertionSort _ _).mem_iff.mp hb
    exact List.mem_filterMap.mp hb2
  · intro line b hp
    unfold parse_branch_line at hp
    split at hp
    · exact Option.noConfusion hp
    · split at hp
      · rename_i x r heq
        split at hp
        · rename_i hpref
          exact ⟨x, r, heq, hpref⟩
        · exact Option.noConfusion hp
      · exact Option.noConfusion hp

/-- Witness for the amended claim C9 at a two-branch listing that also
contains the symbolic `HEAD` line. -/
theorem claim_C9_corrected_witness :
    List.Sorted (fun a b : String => pyStrLe a b = true)
      (get_branches_sorted "ffff\tHEAD\naaaa\trefs/heads/main\nbbbb\trefs/heads/dev")
    ∧ GitService.get_branches false "ffff\tHEAD\naaaa\trefs/heads/main\nbbbb\trefs/heads/dev"
        = Except.error "Repository not initialized. Call clone() first." := by
  have h := claim_C9_corrected "ffff\tHEAD\naaaa\trefs/heads/main\nbbbb\trefs/heads/dev"
  exact ⟨h.1, h.2.2.2.1⟩

theorem foldr_max_ge (l : List Nat) (x : Nat) (hx : x ∈ l) : x ≤ l.foldr max 0 := by
  induction l with
  | nil => simp at hx
  | cons a as ih =>
    rcases List.mem_cons.mp hx with h | h
    · subst h
      exact le_max_left _ _
    · exact le_trans (ih h) (le_max_right _ _)

theorem foldr_max_mem (l : List Nat) (h : l ≠ []) : l.foldr max 0 ∈ l := by
  induction l with
  | nil => exact absurd rfl h
  | cons a as ih =>
    by_cases hnil : as = []
    · subst hnil
      simp
    · rcases le_total (as.foldr max 0) a with hle | hge
      · have heq : (a :: as).foldr max 0 = a := by
          simp [max_eq_left hle]
        rw [heq]
        exact List.mem_cons_self _ _
      · have heq : (a :: as).foldr max 0 = as.foldr max 0 := by
          simp [max_eq_right hge]
        rw [heq]
        exact List.mem_cons_of_mem a (ih hnil)

theorem sorted_sortAsc_take (m : List LogRow) (n : Nat) :
    List.Sorted rowLe ((m.insertionSort rowLe).take n) :=
  List.Pairwise.sublist (List.take_sublist n _) (List.sorted_insertionSort rowLe m)

theorem mem_of_sortAsc_take {m : List LogRow} {n : Nat} {r : LogRow}
    (h : r ∈ (m.insertionSort rowLe).take n) : r ∈ m :=
  (List.perm_insertionSort rowLe m).mem_iff.mp ((List.take_sublist n _).subset h)

theorem top500_most_recent (base : List LogRow) (r q : LogRow) (hr : r ∈ base)
    (hq : q ∈ base.filter
      (fun x => (((base.insertionSort rowGe).take 500).map (·.id)).contains x.id))
    (hnr : r ∉ base.filter
      (fun x => (((base.insertionSort rowGe).take 500).map (·.id)).contains x.id)) :
    r.id ≤ q.id := by
  have hsorted : List.Sorted rowGe (base.insertionSort rowGe) :=
    List.sorted_insertionSort rowGe base
  have hperm := List.perm_insertionSort rowGe base
  have hrid : r.id ∉ ((base.insertionSort rowGe).take 500).map (·.id) := by
    intro hmem
    apply hnr
    rw [List.mem_filter]
    exact ⟨hr, List.elem_eq_true_of_mem hmem⟩
  have hrdrop : r ∈ (base.insertionSort rowGe).drop 500 := by
    have hrs : r ∈ (base.insertionSort rowGe) := hperm.mem_iff.mpr hr
    rw [← List.take_append_drop 500 (base.insertionSort rowGe)] at hrs
    rcases List.mem_append.mp hrs with hm | hm
    · exact absurd (List.mem_map.mpr ⟨r, hm, rfl⟩) hrid
    · exact hm
  have hq2 := List.mem_filter.mp hq
  have hqid : q.id ∈ ((base.insertionSort rowGe).take 500).map (·.id) := by
    have hcont := hq2.2
    exact List.mem_of_elem_eq_true hcont
  obtain ⟨q2, hq2t, hq2id⟩ := List.mem_map.mp hqid
  have hpair : ∀ a ∈ (base.insertionSort rowGe).take 500,
      ∀ b ∈ (base.insertionSort rowGe).drop 500, rowGe a b := by
    have h2 : List.Pairwise rowGe
        ((base.insertionSort rowGe).take 500 ++ (base.insertionSort rowGe).drop 500) := by
      rw [List.take_append_drop]
      exact hsorted
    exact (List.pairwise_append.mp h2).2.2
  have hge : r.id ≤ q2.id := hpair q2 hq2t r hrdrop
  rw [← hq2id]
  exact hge

/-- Claim C8: with `since_id`, the response is exactly the matching rows with
`id > since_id`, in ascending id order, capped at 100 (complete when at most
100 match); without it, the rows returned are among the matching ones, in
ascending order, complete when at most 500 match, and any matching row left
out has an id no larger than every returned id (the 500 most recent are
kept); and `max_log_id` is the maximum id of the returned rows, 0 when none
are returned. -/
theorem claim_C8_incremental_fetch (rows : List LogRow) (deploymentId s : Nat)
    (logs : List LogRow) :
    List.Sorted rowLe (deployment_logs_query rows deploymentId (some s))
    ∧ (∀ r ∈ deployment_logs_query rows deploymentId (some s),
        r ∈ rows ∧ r.deployment_id = deploymentId ∧ s < r.id)
    ∧ (deployment_logs_query rows deploymentId (some s)).length
        = min 100 ((rows.filter (fun r => r.deployment_id == deploymentId)).filter
            (fun r => decide (s < r.id))).length
    ∧ (((rows.filter (fun r => r.deployment_id == deploymentId)).filter
          (fun r => decide (s < r.id))).length ≤ 100 →
        ∀ r, r ∈ deployment_logs_query rows deploymentId (some s) ↔
          r ∈ (rows.filter (fun r => r.deployment_id == deploymentId)).filter
            (fun r => decide (s < r.id)))
    ∧ List.Sorted rowLe (deployment_logs_query rows deploymentId none)
    ∧ (∀ r ∈ deployment_logs_query rows deploymentId none,
        r ∈ rows ∧ r.deployment_id = deploymentId)
    ∧ ((rows.filter (fun r => r.deployment_id == deploymentId)).length ≤ 500 →
        ∀ r, r ∈ deployment_logs_query rows deploymentId none ↔
          r ∈ rows.filter (fun r => r.deployment_id == deploymentId))
    ∧ (∀ r ∈ rows.filter (fun r => r.deployment_id == deploymentId),
        r ∉ deployment_logs_query rows deploymentId none →
        ∀ q ∈ deployment_logs_query rows deploymentId none, r.id ≤ q.id)
    ∧ (∀ r ∈ logs, r.id ≤ response_max_log_id logs)
    ∧ (logs ≠ [] → response_max_log_id logs ∈ logs.map (·.id))
    ∧ (logs = [] → response_max_log_id logs = 0) := by
  have hq_some : deployment_logs_query rows deploymentId (some s)
      = (((rows.filter (fun r => r.deployment_id == deploymentId)).filter
          (fun r => decide (s < r.id))).insertionSort rowLe).take 100 := rfl
  have hq_none : deployment_logs_query rows deploymentId none
      = ((rows.filter (fun r => r.deployment_id == deploymentId)).filter
          (fun x => ((((rows.filter (fun r => r.deployment_id == deploymentId)).insertionSort
            rowGe).take 500).map (·.id)).contains x.id)).insertionSort rowLe := rfl
  refine ⟨?_, ?_, ?_, ?_, ?_, ?_, ?_, ?_, ?_, ?_, ?_⟩
  · rw [hq_some]
    exact sorted_sortAsc_take _ _
  · intro r hr
    rw [hq_some] at hr
    have hm := mem_of_sortAsc_take hr
    have h1 := List.mem_filter.mp hm
    have h2 := List.mem_filter.mp h1.1
    exact ⟨h2.1, by simpa using h2.2, by simpa using h1.2⟩
  · rw [hq_some, List.length_take, (List.perm_insertionSort rowLe _).length_eq]
  · intro hlen r
    rw [hq_some]
    have hlen2 : (((rows.filter (fun r => r.deployment_id == deploymentId)).filter
        (fun r => decide (s < r.id))).insertionSort rowLe).length ≤ 100 := by
      rw [(List.perm_insertionSort rowLe _).length_eq]
      exact hlen
    rw [List.take_of_length_le hlen2]
    exact (List.perm_insertionSort rowLe _).mem_iff
  · rw [hq_none]
    exact List.sorted_insertionSort rowLe _
  · intro r hr
    rw [hq_none] at hr
    have hm := (List.perm_insertionSort rowLe _).mem_iff.mp hr
    have h1 := List.mem_filter.mp hm
    have h2 := List.mem_filter.mp h1.1
    exact ⟨h2.1, by simpa using h2.2⟩
  · intro hlen r
    rw [hq_none]
    have htake : ((rows.filter (fun r => r.deployment_id == deploymentId)).insertionSort
        rowGe).take 500 = (rows.filter (fun r => r.deployment_id == deploymentId)).insertionSort
        rowGe := by
      apply List.take_of_length_le
      rw [(List.perm_insertionSort rowGe _).length_eq]
      exact hlen
    rw [htake]
    have hfilter : (rows.filter (fun r => r.deployment_id == deploymentId)).filter
        (fun x => ((((rows.filter (fun r => r.deployment_id == deploymentId)).insertionSort
          rowGe)).map (·.id)).contains x.id)
        = rows.filter (fun r => r.deployment_id == deploymentId) := by
      apply List.filter_eq_self.mpr
      intro a ha
      apply List.elem_eq_true_of_mem
      apply List.mem_map.mpr
      exact ⟨a, (List.perm_insertionSort rowGe _).mem_iff.mpr ha, rfl⟩
    rw [hfilter]
    exact (List.perm_insertionSort rowLe _).mem_iff
  · intro r hr hnr q hq
    rw [hq_none] at hnr hq
    have hq2 := (List.perm_insertionSort rowLe _).mem_iff.mp hq
    have hnr2 : r ∉ (rows.filter (fun r => r.deployment_id == deploymentId)).filter
        (fun x => ((((rows.filter (fun r => r.deployment_id == deploymentId)).insertionSort
          rowGe).take 500).map (·.id)).contains x.id) := by
      intro hc
      exact hnr ((List.perm_insertionSort rowLe _).mem_iff.mpr hc)
    exact top500_most_recent _ r q hr hq2 hnr2
  · intro r hr
    exact foldr_max_ge _ _ (List.mem_map.mpr ⟨r, hr, rfl⟩)
  · intro hne
    apply foldr_max_mem
    simpa using hne
  · intro hnil
    subst hnil
    rfl

/-- Witness for claim C8 at a concrete four-row table. -/
theorem claim_C8_incremental_fetch_witness :
    List.Sorted rowLe (deployment_logs_query c8_rows 1 (some 1))
    ∧ (∀ r, r ∈ deployment_logs_query c8_rows 1 (some 1) ↔
        r ∈ (c8_rows.filter (fun r => r.deployment_id == 1)).filter
          (fun r => decide (1 < r.id)))
    ∧ (∀ r, r ∈ deployment_logs_query c8_rows 1 none ↔
        r ∈ c8_rows.filter (fun r => r.deployment_id == 1)) := by
  have h := claim_C8_incremental_fetch c8_rows 1 1 []
  exact ⟨h.1, h.2.2.2.1 (by decide), h.2.2.2.2.2.2.1 (by decide)⟩

end RemoteBuild
